import Mathlib

/-!
Verification of the MIGOP Editor V3 workflow engine
(src/migop-editor/V3/workflow-controller.js, src/migop-editor/V3/version-manager.js,
src/migop-editor/V3/v3.gs).

The JavaScript sources are shallowly embedded as executable Lean functions:

* JavaScript strings are `String`, nullable strings are `Option String`
  (`none` models both `null` and `undefined`), numbers that can be `NaN`
  are `Option Int` (`none` models `NaN`).
* Asynchronous callback-style code is embedded in two complementary ways:
  - handler-level functions (`exportSuccessArrives`, `exportTimeoutFires`, ...)
    that act on the controller state exactly as the corresponding JS
    success/failure/timeout closures do, so that arbitrary interleavings of
    completions can be analysed, and
  - run-level functions (`executePhase1`, `executePhase2`, `executePhase3`)
    that compose a whole phase given an oracle (`RunOracle`) supplying the
    outcome of every external collaborator call, corresponding to a run in
    which each registered callback fires next.
* Side effects (log lines, DOM `CustomEvent` dispatches, gateway calls,
  `setTimeout` registrations, clipboard writes) are reified in an `Effect`
  trace returned next to the new controller state.  Advisory `info`-level
  logging is only modelled where a transition emits it; the `timestamp`
  field of event payloads (wall-clock ISO strings) is not modelled.
-/

set_option maxHeartbeats 1600000

namespace MigopV3

/-! ## JavaScript string and number primitives -/

/-- Decimal digit character, `digitChar d = '0' + d` for `d ≤ 9`. -/
def digitChar (d : Nat) : Char := Char.ofNat (48 + d)

/-- Fuel-driven decimal rendering of a natural number; `fuel ≥ n` makes it exact.
Models the JavaScript number-to-string conversion `String(n)` used by
`generateVersionNumber`. -/
def natToCharsAux : Nat → Nat → List Char
  | 0, n => [digitChar n]
  | Nat.succ fuel, n =>
    if n < 10 then [digitChar n]
    else natToCharsAux fuel (n / 10) ++ [digitChar (n % 10)]

/-- Decimal digits of `n`, most significant first. -/
def natToChars (n : Nat) : List Char := natToCharsAux n n

/-- JavaScript `String(n)` for a natural number. -/
def natToString (n : Nat) : String := String.mk (natToChars n)

/-- JavaScript `String(i)` for an integer. -/
def intToString (i : Int) : String :=
  if i < 0 then "-" ++ natToString i.natAbs else natToString i.natAbs

/-- JavaScript string interpolation of a number-or-null value
(`null + ':' ... ` renders as `"null"`). -/
def jsStringOfNullableInt : Option Int → String
  | none => "null"
  | some i => intToString i

/-- `padStart(2, '0')` on a character list. -/
def padStart2C (l : List Char) : List Char :=
  if l.length < 2 then List.replicate (2 - l.length) '0' ++ l else l

/-- JavaScript `s.padStart(2, '0')`. -/
def padStart2 (s : String) : String := String.mk (padStart2C s.data)

/-- JavaScript `s.slice(-2)` on a character list: the last two characters
(the whole list when it is shorter). -/
def sliceNeg2C (l : List Char) : List Char := l.drop (l.length - 2)

/-- JavaScript `s.slice(-2)`. -/
def jsSliceNeg2 (s : String) : String := String.mk (sliceNeg2C s.data)

/-- Splitting a character list at every `':'`; models `s.split(':')`. -/
def splitColonChars : List Char → List (List Char)
  | [] => [[]]
  | c :: rest =>
    if c = ':' then [] :: splitColonChars rest
    else
      match splitColonChars rest with
      | [] => [[c]]
      | g :: gs => (c :: g) :: gs

/-- JavaScript `s.split(':')`. -/
def jsSplitColon (s : String) : List String :=
  (splitColonChars s.data).map String.mk

/-- The whitespace characters skipped by JavaScript `parseInt`. -/
def jsIsSpace (c : Char) : Bool :=
  c = ' ' || c = '\t' || c = '\n' || c = '\r' || c = '\x0b' || c = '\x0c'

/-- Left fold computing the value of a run of decimal digit characters. -/
def digitsValAux : Nat → List Char → Nat
  | acc, [] => acc
  | acc, c :: rest => digitsValAux (acc * 10 + (c.toNat - 48)) rest

/-- Value of the longest decimal-digit prefix; `none` when there is no digit. -/
def parseDigitsPrefix (l : List Char) : Option Nat :=
  let ds := l.takeWhile Char.isDigit
  if ds.isEmpty then none else some (digitsValAux 0 ds)

/-- JavaScript `parseInt(s)` (decimal form): skip leading whitespace, read an
optional sign and then the longest decimal-digit prefix; `none` models `NaN`.
The hexadecimal `0x` prefix form of `parseInt` is not modelled; no identifier
component produced or consumed by this codebase starts with `0x`. -/
def jsParseIntChars (l : List Char) : Option Int :=
  match l.dropWhile jsIsSpace with
  | [] => none
  | c :: rest =>
    if c = '-' then (parseDigitsPrefix rest).map (fun n => -(n : Int))
    else if c = '+' then (parseDigitsPrefix rest).map (fun n => (n : Int))
    else (parseDigitsPrefix (c :: rest)).map (fun n => (n : Int))

/-- JavaScript `parseInt(s)`. -/
def jsParseInt (s : String) : Option Int := jsParseIntChars s.data

/-- JavaScript `a || b` on nullable strings: `b` when `a` is `null`,
`undefined` or the empty string. -/
def jsOrStr (a b : Option String) : Option String :=
  match a with
  | none => b
  | some s => if s = "" then b else some s

/-- JavaScript truthiness of a nullable string. -/
def truthyS : Option String → Bool
  | none => false
  | some s => s ≠ ""

/-! ## Version manager (src/migop-editor/V3/version-manager.js) -/

/-- A JavaScript `Date` as observed through the accessors the version manager
uses: `getFullYear`, `getMonth` (0-based month index), `getDate`, `getHours`,
`getMinutes`, `getSeconds`. -/
structure JSDate where
  fullYear : Nat
  month0 : Nat
  date : Nat
  hours : Nat
  minutes : Nat
  seconds : Nat
deriving DecidableEq, Repr

/-- The `yy:mm:dd:hh:mm:ss` tail of a version identifier, exactly as built on
version-manager.js lines 67-75: two-digit year via `slice(-2)`, month index
plus one, all zero-padded to width 2. -/
def dateStampStr (d : JSDate) : String :=
  padStart2 (jsSliceNeg2 (natToString d.fullYear)) ++ ":" ++
  padStart2 (natToString (d.month0 + 1)) ++ ":" ++
  padStart2 (natToString d.date) ++ ":" ++
  padStart2 (natToString d.hours) ++ ":" ++
  padStart2 (natToString d.minutes) ++ ":" ++
  padStart2 (natToString d.seconds)

/-- `VersionManager.prototype.generateVersionNumber` (version-manager.js
lines 50-82): `null` when the type tag is not `B`, `A` or `O`, otherwise the
string `seq:type:yy:mm:dd:hh:mm:ss`. -/
def generateVersionNumber (sequentialNumber : Option Int) (type : String)
    (timestamp : JSDate) : Option String :=
  if type = "B" ∨ type = "A" ∨ type = "O" then
    some (jsStringOfNullableInt sequentialNumber ++ ":" ++ type ++ ":" ++
          dateStampStr timestamp)
  else none

/-- Result record of `parseVersionNumber`; numeric fields are `parseInt`
results, so `none` models `NaN`. -/
structure ParsedVersion where
  sequential : Option Int
  type : String
  year : Option Int
  month : Option Int
  day : Option Int
  hour : Option Int
  minute : Option Int
  second : Option Int
deriving DecidableEq, Repr

/-- `VersionManager.prototype.parseVersionNumber` (version-manager.js lines
89-117): `null` unless splitting on `':'` yields exactly 8 parts; each numeric
field is `parseInt` of its part, with no numeric validation. -/
def parseVersionNumber (versionString : String) : Option ParsedVersion :=
  let parts := jsSplitColon versionString
  if parts.length ≠ 8 then none
  else some {
    sequential := jsParseInt (parts.getD 0 ""),
    type := parts.getD 1 "",
    year := jsParseInt (parts.getD 2 ""),
    month := jsParseInt (parts.getD 3 ""),
    day := jsParseInt (parts.getD 4 ""),
    hour := jsParseInt (parts.getD 5 ""),
    minute := jsParseInt (parts.getD 6 ""),
    second := jsParseInt (parts.getD 7 "") }

/-- The committee abbreviation table of `getCommitteeDisplayName`
(version-manager.js lines 269-290). -/
def lookupCommittee (v : String) : Option String :=
  if v = "PDBOR" then some "PDBOR Subcommittee"
  else if v = "Policy" then some "Policy Committee"
  else if v = "D1" then some "District 1"
  else if v = "D2" then some "District 2"
  else if v = "D3" then some "District 3"
  else if v = "D4" then some "District 4"
  else if v = "D5" then some "District 5"
  else if v = "D6" then some "District 6"
  else if v = "D7" then some "District 7"
  else if v = "D8" then some "District 8"
  else if v = "D9" then some "District 9"
  else if v = "D10" then some "District 10"
  else if v = "D11" then some "District 11"
  else if v = "D12" then some "District 12"
  else if v = "D13" then some "District 13"
  else if v = "State" then some "State Committee"
  else none

/-- `VersionManager.prototype.getCommitteeDisplayName`:
`committeeMap[value] || value`. -/
def getCommitteeDisplayName (committeeValue : Option String) : Option String :=
  match committeeValue with
  | none => none
  | some s =>
    match lookupCommittee s with
    | some full => some full
    | none => some s

/-- Leading-run counter used to model the regex `\n{3,}` replacement. -/
def countLeadingNewlines : List Char → Nat × List Char
  | [] => (0, [])
  | c :: rest =>
    if c = '\n' then
      let p := countLeadingNewlines rest
      (p.1 + 1, p.2)
    else (0, c :: rest)

/-- Fuel-driven scan replacing every run of three or more newlines by exactly
two, leaving shorter runs alone; models `replace(/\n{3,}/g, '\n\n')`. -/
def collapseNlAux : Nat → List Char → List Char
  | 0, l => l
  | Nat.succ _, [] => []
  | Nat.succ fuel, c :: rest =>
    if c = '\n' then
      let p := countLeadingNewlines (c :: rest)
      List.replicate (min p.1 2) '\n' ++ collapseNlAux fuel p.2
    else c :: collapseNlAux fuel rest

/-- Remainder of a character list after the first `'>'`, if any. -/
def afterGt : List Char → Option (List Char)
  | [] => none
  | c :: rest => if c = '>' then some rest else afterGt rest

/-- Fuel-driven scan removing every `<...>` span; models
`replace(/<[^>]*>/g, '')` (a `<` with no later `>` can start no match, so the
remainder is kept verbatim). -/
def stripTagsAux : Nat → List Char → List Char
  | 0, l => l
  | Nat.succ _, [] => []
  | Nat.succ fuel, c :: rest =>
    if c = '<' then
      match afterGt rest with
      | some after => stripTagsAux fuel after
      | none => c :: rest
    else c :: stripTagsAux fuel rest

/-- JavaScript `s.trim()`. -/
def jsTrim (s : String) : String :=
  String.mk (((s.data.dropWhile jsIsSpace).reverse.dropWhile jsIsSpace).reverse)

/-- `VersionManager.prototype.formatCommentsText` (version-manager.js lines
297-309): empty for falsy input, otherwise trim, collapse newline runs, strip
markup tags. -/
def formatCommentsText (comments : Option String) : String :=
  match comments with
  | none => ""
  | some s =>
    if s = "" then ""
    else
      let t := jsTrim s
      let u := collapseNlAux t.data.length t.data
      String.mk (stripTagsAux u.length u)

/-- Version-history record assembled by `executePhase3` and checked by
`validateVersionData`. -/
structure VersionData where
  versionNumber : Option String
  committee : Option String
  timestamp : Option String
  comments : Option String
deriving DecidableEq, Repr

/-- Result record of `validateVersionData`. -/
structure ValidationResult where
  valid : Bool
  errors : List String
deriving DecidableEq, Repr

/-- `VersionManager.prototype.validateVersionData` (version-manager.js lines
222-258): requires a truthy `versionNumber` that `parseVersionNumber` accepts,
and truthy `committee`, `timestamp` and `comments`. -/
def validateVersionData (versionData : VersionData) : ValidationResult :=
  let e1 : List String :=
    match versionData.versionNumber with
    | none => ["Version number is required"]
    | some s =>
      if s = "" then ["Version number is required"]
      else if (parseVersionNumber s).isNone then ["Invalid version number format"]
      else []
  let e2 : List String :=
    if truthyS versionData.committee then [] else ["Committee is required"]
  let e3 : List String :=
    if truthyS versionData.timestamp then [] else ["Timestamp is required"]
  let e4 : List String :=
    if truthyS versionData.comments then [] else ["Comments are required"]
  let errors := e1 ++ e2 ++ e3 ++ e4
  { valid := errors.isEmpty, errors := errors }

/-! ## Workflow controller data model
(src/migop-editor/V3/workflow-controller.js, first module) -/

/-- The eleven workflow states (workflow-controller.js lines 45-57). -/
inductive WState where
  | IDLE
  | PHASE_1_EXPORTING
  | PHASE_1_ANALYZING
  | VERSION_1_PAUSE
  | PHASE_2_TRANSFORMING
  | PHASE_2_REBUILDING
  | PHASE_2_REPLACING
  | VERSION_2_PAUSE
  | PHASE_3_FINALIZING
  | COMPLETE
  | ERROR
deriving DecidableEq, Repr

/-- The string value of each `WorkflowStates` member. -/
def stateName : WState → String
  | .IDLE => "IDLE"
  | .PHASE_1_EXPORTING => "PHASE_1_EXPORTING"
  | .PHASE_1_ANALYZING => "PHASE_1_ANALYZING"
  | .VERSION_1_PAUSE => "VERSION_1_PAUSE"
  | .PHASE_2_TRANSFORMING => "PHASE_2_TRANSFORMING"
  | .PHASE_2_REBUILDING => "PHASE_2_REBUILDING"
  | .PHASE_2_REPLACING => "PHASE_2_REPLACING"
  | .VERSION_2_PAUSE => "VERSION_2_PAUSE"
  | .PHASE_3_FINALIZING => "PHASE_3_FINALIZING"
  | .COMPLETE => "COMPLETE"
  | .ERROR => "ERROR"

/-- A detected tracked-change suggestion; the controller only stores these and
counts them, so only the discriminating `type` field is modelled. -/
structure Suggestion where
  type : String
deriving DecidableEq, Repr

/-- `workflowData.phase1` (workflow-controller.js lines 88-95).  Blob and zip
handles are opaque external objects, modelled as numeric handles. -/
structure Phase1Data where
  exportedDocxBlob : Option Nat
  exportedDocxBase64 : Option String
  documentXml : Option String
  suggestions : List Suggestion
  versionNumber : Option String
  zip : Option Nat
deriving DecidableEq, Repr

/-- `workflowData.phase2` (workflow-controller.js lines 96-102). -/
structure Phase2Data where
  modifiedXml : Option String
  rebuiltDocxBlob : Option Nat
  rebuiltDocxBase64 : Option String
  versionNumber : Option String
  isOfficial : Bool
deriving DecidableEq, Repr

/-- `workflowData.phase3` (workflow-controller.js lines 103-107). -/
structure Phase3Data where
  committee : Option String
  comments : Option String
  timestamp : Option String
deriving DecidableEq, Repr

/-- The single mutable record owned by the controller for one run. -/
structure WorkflowData where
  versionCounter : Option Int
  phase1 : Phase1Data
  phase2 : Phase2Data
  phase3 : Phase3Data
deriving DecidableEq, Repr

/-- `WorkflowController.prototype.createInitialState`
(workflow-controller.js lines 85-109). -/
def createInitialState : WorkflowData :=
  { versionCounter := none,
    phase1 := { exportedDocxBlob := none, exportedDocxBase64 := none,
                documentXml := none, suggestions := [], versionNumber := none,
                zip := none },
    phase2 := { modifiedXml := none, rebuiltDocxBlob := none,
                rebuiltDocxBase64 := none, versionNumber := none,
                isOfficial := false },
    phase3 := { committee := none, comments := none, timestamp := none } }

/-- The controller state: current workflow state, the owned `workflowData`
record, and the set of outstanding tracked server-call identifiers. -/
structure Controller where
  currentState : WState
  workflowData : WorkflowData
  activeServerCalls : List String
deriving DecidableEq, Repr

/-- Reified side effects of controller operations: log lines, the
`workflowStateChange` and `workflowError` `CustomEvent` dispatches, outgoing
gateway (`google.script.run`) calls, `setTimeout` registrations and clipboard
writes. -/
inductive Effect where
  | logInfo (component msg : String)
  | logWarn (component msg : String)
  | logError (component msg : String)
  | stateChange (oldState newState : String) (workflowData : WorkflowData)
  | errorEvent (message : String) (cause : Option String) (state : String)
      (workflowData : WorkflowData)
  | gatewayCall (op : String)
  | armTimeout (callId : String) (ms : Nat)
  | clipboardCopy (text : Option String)
deriving DecidableEq, Repr

/-- Sequencing helper: run `f` on the controller produced by `r`, keeping the
effect traces in order. -/
def andThen (r : Controller × List Effect)
    (f : Controller → Controller × List Effect) : Controller × List Effect :=
  ((f r.1).1, r.2 ++ (f r.1).2)

/-! ### Field update helpers -/

/-- Controller write `workflowData.versionCounter = v`. -/
def setVersionCounter (c : Controller) (v : Option Int) : Controller :=
  { c with workflowData := { c.workflowData with versionCounter := v } }

/-- Controller write `workflowData.phase1.exportedDocxBase64 = v`. -/
def setP1ExportedBase64 (c : Controller) (v : Option String) : Controller :=
  { c with workflowData := { c.workflowData with
      phase1 := { c.workflowData.phase1 with exportedDocxBase64 := v } } }

/-- Controller write `workflowData.phase1.documentXml = v`. -/
def setP1Xml (c : Controller) (v : Option String) : Controller :=
  { c with workflowData := { c.workflowData with
      phase1 := { c.workflowData.phase1 with documentXml := v } } }

/-- Controller write `workflowData.phase1.zip = v`. -/
def setP1Zip (c : Controller) (v : Option Nat) : Controller :=
  { c with workflowData := { c.workflowData with
      phase1 := { c.workflowData.phase1 with zip := v } } }

/-- Controller write `workflowData.phase1.suggestions = v`. -/
def setP1Suggestions (c : Controller) (v : List Suggestion) : Controller :=
  { c with workflowData := { c.workflowData with
      phase1 := { c.workflowData.phase1 with suggestions := v } } }

/-- Controller write `workflowData.phase1.versionNumber = v`. -/
def setP1VersionNumber (c : Controller) (v : Option String) : Controller :=
  { c with workflowData := { c.workflowData with
      phase1 := { c.workflowData.phase1 with versionNumber := v } } }

/-- Controller write `workflowData.phase2.modifiedXml = v`. -/
def setP2ModifiedXml (c : Controller) (v : Option String) : Controller :=
  { c with workflowData := { c.workflowData with
      phase2 := { c.workflowData.phase2 with modifiedXml := v } } }

/-- Controller write `workflowData.phase2.rebuiltDocxBlob = v`. -/
def setP2Blob (c : Controller) (v : Option Nat) : Controller :=
  { c with workflowData := { c.workflowData with
      phase2 := { c.workflowData.phase2 with rebuiltDocxBlob := v } } }

/-- Controller write `workflowData.phase2.rebuiltDocxBase64 = v`. -/
def setP2Base64 (c : Controller) (v : Option String) : Controller :=
  { c with workflowData := { c.workflowData with
      phase2 := { c.workflowData.phase2 with rebuiltDocxBase64 := v } } }

/-- Controller write `workflowData.phase2.versionNumber = v`. -/
def setP2VersionNumber (c : Controller) (v : Option String) : Controller :=
  { c with workflowData := { c.workflowData with
      phase2 := { c.workflowData.phase2 with versionNumber := v } } }

/-- Controller write `workflowData.phase2.isOfficial = v`. -/
def setP2IsOfficial (c : Controller) (v : Bool) : Controller :=
  { c with workflowData := { c.workflowData with
      phase2 := { c.workflowData.phase2 with isOfficial := v } } }

/-- Controller write `workflowData.phase3.committee = v`. -/
def setP3Committee (c : Controller) (v : Option String) : Controller :=
  { c with workflowData := { c.workflowData with
      phase3 := { c.workflowData.phase3 with committee := v } } }

/-- Controller write `workflowData.phase3.comments = v`. -/
def setP3Comments (c : Controller) (v : Option String) : Controller :=
  { c with workflowData := { c.workflowData with
      phase3 := { c.workflowData.phase3 with comments := v } } }

/-! ### State management and call tracking -/

/-- `Set.add` on the tracked call identifiers. -/
def addCall (callId : String) (c : Controller) : Controller :=
  if callId ∈ c.activeServerCalls then c
  else { c with activeServerCalls := callId :: c.activeServerCalls }

/-- `Set.delete` on the tracked call identifiers. -/
def removeCall (callId : String) (c : Controller) : Controller :=
  { c with activeServerCalls :=
      c.activeServerCalls.filter (fun x => x ≠ callId) }

/-- `WorkflowController.prototype.transitionTo` (lines 115-120): update the
state, log, and dispatch `workflowStateChange` carrying the (post-update)
`workflowData` reference. -/
def transitionTo (c : Controller) (newState : WState) : Controller × List Effect :=
  let c' := { c with currentState := newState }
  (c', [Effect.logInfo "WorkflowController" "State transition",
        Effect.stateChange (stateName c.currentState) (stateName newState)
          c'.workflowData])

/-- `WorkflowController.prototype.isPaused` (lines 133-135). -/
def isPaused (c : Controller) : Prop :=
  c.currentState = WState.VERSION_1_PAUSE ∨ c.currentState = WState.VERSION_2_PAUSE

instance (c : Controller) : Decidable (isPaused c) := by
  unfold isPaused; infer_instance

/-- `WorkflowController.prototype.isComplete` (lines 137-139). -/
def isComplete (c : Controller) : Prop := c.currentState = WState.COMPLETE

/-- `WorkflowController.prototype.handleError` (lines 559-582): log the error,
transition to `ERROR`, then dispatch `workflowError` whose `state` field reads
`self.currentState` after the transition. -/
def handleError (c : Controller) (message : String) (cause : Option String) :
    Controller × List Effect :=
  andThen (c, [Effect.logError "WorkflowController" message]) fun c =>
  andThen (transitionTo c WState.ERROR) fun c =>
  (c, [Effect.errorEvent message cause (stateName c.currentState) c.workflowData])

/-- `WorkflowController.prototype.completeWorkflow` (lines 549-557). -/
def completeWorkflow (c : Controller) : Controller × List Effect :=
  andThen (c, [Effect.logInfo "WorkflowController"
                 "Workflow completed successfully"]) fun c =>
  transitionTo c WState.COMPLETE

/-- `WorkflowController.prototype.reset` (lines 584-594): clear tracked calls,
return to `IDLE` with a fresh `workflowData`, emitting a state change whose old
state is the literal string `RESET`. -/
def reset (_c : Controller) : Controller × List Effect :=
  let c' : Controller :=
    { currentState := WState.IDLE, workflowData := createInitialState,
      activeServerCalls := [] }
  (c', [Effect.logInfo "WorkflowController" "Resetting workflow",
        Effect.stateChange "RESET" (stateName WState.IDLE) c'.workflowData])

/-! ### Remote calls: results, outcomes, and completion handlers

`google.script.run` calls complete through a success handler (possibly with a
`null` payload), a failure handler, or the locally armed timeout.  The
handler-level functions below are the bodies of those closures
(workflow-controller.js lines 221-281 and 386-501); they act on whatever
controller state holds when the browser fires them. -/

/-- Result shape of `exportDocumentAsDocx`, and of the records the export
handlers synthesize on failure. -/
structure ExportResult where
  success : Bool
  data : Option String
  error : Option String
deriving DecidableEq, Repr

/-- `metadata` part of a DOCX processor result. -/
structure ProcMeta where
  modifiedXml : Option String
  zip : Option Nat
deriving DecidableEq, Repr

/-- Result shape of `docxProcessor.process`. -/
structure ProcessResult where
  success : Bool
  metadata : ProcMeta
  modifiedXml : Option String
  errors : String
deriving DecidableEq, Repr

/-- Result shape of `docxProcessor.rebuildDocx`. -/
structure RebuildResult where
  success : Bool
  docxBlob : Option Nat
  error : Option String
deriving DecidableEq, Repr

/-- Result shape of `docxProcessor.convertBlobToBase64`. -/
structure ConvertResult where
  success : Bool
  base64Data : Option String
  error : Option String
deriving DecidableEq, Repr

/-- Result shape of `replaceDocumentWithProcessedDocx`, and of the records the
replace handlers synthesize on failure. -/
structure ReplaceResult where
  success : Bool
  error : Option String
deriving DecidableEq, Repr

/-- Result shape of `writeVersionHistoryPage`. -/
structure WriteResult where
  success : Bool
  error : Option String
deriving DecidableEq, Repr

/-- Record passed to `getVersionCounter` callbacks. -/
structure CounterResult where
  success : Bool
  counter : Option Int
  error : Option String
deriving DecidableEq, Repr

/-- Record passed to `generateBeforeVersion` callbacks. -/
structure VersionResult where
  success : Bool
  versionNumber : Option String
  counter : Option Int
  error : Option String
deriving DecidableEq, Repr

/-- How a tracked `google.script.run` call completes: its success handler fires
(with a possibly-`null` payload), its failure handler fires, or its local
timeout fires first. -/
inductive CallOutcome (α : Type) where
  | succeeds (result : Option α)
  | fails (errMsg : String)
  | timesOut
deriving DecidableEq, Repr

/-- How an untracked server call (no timeout armed) completes. -/
inductive SResponse (α : Type) where
  | success (result : α)
  | failure (errMsg : String)
deriving DecidableEq, Repr

/-- Export timeout policy value: `setTimeout(..., 30000)` on
workflow-controller.js line 240. -/
def exportTimeoutMs : Nat := 30000

/-- Replace timeout policy value: `setTimeout(..., 60000)` on
workflow-controller.js line 410. -/
def replaceTimeoutMs : Nat := 60000

/-- The export timeout closure (lines 234-240): if the call is still tracked,
untrack it, log, and report a timeout failure to the phase callback. -/
def exportTimeoutFires (callId : String)
    (k : ExportResult → Controller → Controller × List Effect)
    (c : Controller) : Controller × List Effect :=
  if callId ∈ c.activeServerCalls then
    andThen (removeCall callId c,
             [Effect.logError "WorkflowController"
                "Document export timed out after 30 seconds"]) fun c =>
    k { success := false, data := none,
        error := some "Export operation timed out" } c
  else (c, [])

/-- The export success handler (lines 243-268): bail out with a warning when
the call is no longer tracked; otherwise untrack it, validate the payload and
invoke the phase callback. -/
def exportSuccessArrives (callId : String) (result : Option ExportResult)
    (k : ExportResult → Controller → Controller × List Effect)
    (c : Controller) : Controller × List Effect :=
  if callId ∈ c.activeServerCalls then
    let c := removeCall callId c
    match result with
    | none =>
      k { success := false, data := none,
          error := some "Export returned invalid result" } c
    | some r =>
      if r.success then k r c
      else k { success := false, data := none,
               error := some "Export returned invalid result" } c
  else
    (c, [Effect.logWarn "WorkflowController"
           "Export success handler called after timeout/cleanup"])

/-- The export failure handler (lines 269-279). -/
def exportFailureArrives (callId : String) (errMsg : String)
    (k : ExportResult → Controller → Controller × List Effect)
    (c : Controller) : Controller × List Effect :=
  if callId ∈ c.activeServerCalls then
    andThen (removeCall callId c,
             [Effect.logError "WorkflowController" "Document export failed"]) fun c =>
    k { success := false, data := none, error := some errMsg } c
  else
    (c, [Effect.logWarn "WorkflowController"
           "Export failure handler called after timeout/cleanup"])

/-- The `safeCallback` wrapper of `replaceDocument` (lines 413-421): the
`callbackCalled` closure flag makes the phase callback fire at most once. -/
def safeCallback (k : ReplaceResult → Controller → Controller × List Effect)
    (result : ReplaceResult) (c : Controller) (callbackCalled : Bool) :
    (Controller × Bool) × List Effect :=
  if callbackCalled then
    ((c, callbackCalled),
     [Effect.logWarn "WorkflowController"
        "Attempted duplicate callback call prevented"])
  else
    let r := k result c
    ((r.1, true), r.2)

/-- The replace timeout closure (lines 403-410). -/
def replaceTimeoutFires (callId : String)
    (k : ReplaceResult → Controller → Controller × List Effect)
    (c : Controller) (callbackCalled : Bool) : (Controller × Bool) × List Effect :=
  if callId ∈ c.activeServerCalls ∧ callbackCalled = false then
    let c := removeCall callId c
    let r := k { success := false,
                 error := some "Document replacement timed out after 60 seconds" } c
    ((r.1, true),
     Effect.logError "WorkflowController"
       "Document replacement timed out after 60 seconds" :: r.2)
  else ((c, callbackCalled), [])

/-- The replace success handler (lines 424-472): bail out with a warning when
the call is no longer tracked; otherwise untrack, validate the payload
(`null` result, `success !== true`) and invoke `safeCallback`. -/
def replaceSuccessArrives (callId : String) (result : Option ReplaceResult)
    (k : ReplaceResult → Controller → Controller × List Effect)
    (c : Controller) (callbackCalled : Bool) : (Controller × Bool) × List Effect :=
  if callId ∈ c.activeServerCalls then
    let c := removeCall callId c
    match result with
    | none =>
      safeCallback k { success := false, error := some "Server returned null result" }
        c callbackCalled
    | some r =>
      if r.success then safeCallback k r c callbackCalled
      else
        safeCallback k
          { success := false,
            error := jsOrStr r.error
              (some "Server reported failure but provided no error message") }
          c callbackCalled
  else
    ((c, callbackCalled),
     [Effect.logWarn "WorkflowController"
        "Replace success handler called after cleanup"])

/-- The replace failure handler (lines 473-499). -/
def replaceFailureArrives (callId : String) (errMsg : String)
    (k : ReplaceResult → Controller → Controller × List Effect)
    (c : Controller) (callbackCalled : Bool) : (Controller × Bool) × List Effect :=
  if callId ∈ c.activeServerCalls then
    let c := removeCall callId c
    safeCallback k { success := false, error := some errMsg } c callbackCalled
  else
    ((c, callbackCalled),
     [Effect.logWarn "WorkflowController"
        "Replace failure handler called after cleanup"])

/-! ### Run-level model

A `RunOracle` fixes the outcome of every external collaborator for one run:
the Apps Script bridge availability, each server call result, the pure
detector/transformer collaborators, and the wall-clock dates sampled by
`new Date()`.  The phase functions below compose the source's callback chains
under the schedule in which each registered callback fires next. -/

structure RunOracle where
  bridge : Bool
  exportCallId : String
  exportResp : CallOutcome ExportResult
  processResp : ProcessResult
  detector : Option String → List Suggestion
  counterResp : SResponse (Option Int)
  beforeDate : JSDate
  transformer : Option String → List Suggestion → String
  rebuildResp : RebuildResult
  convertResp : ConvertResult
  replaceCallId : String
  replaceResp : CallOutcome ReplaceResult
  afterDate : JSDate
  officialDate : JSDate
  nowIso : String
  writeHistoryResp : SResponse WriteResult

/-- `WorkflowController.prototype.exportDocument` (lines 221-281) under a run
oracle: bridge check, call tracking, timeout arming, gateway call, then the
handler selected by the outcome. -/
def exportDocumentRun (o : RunOracle)
    (k : ExportResult → Controller → Controller × List Effect)
    (c : Controller) : Controller × List Effect :=
  if o.bridge then
    andThen (addCall o.exportCallId c,
             [Effect.armTimeout o.exportCallId exportTimeoutMs,
              Effect.gatewayCall "exportDocumentAsDocx"]) fun c =>
    match o.exportResp with
    | .timesOut => exportTimeoutFires o.exportCallId k c
    | .succeeds r => exportSuccessArrives o.exportCallId r k c
    | .fails m => exportFailureArrives o.exportCallId m k c
  else
    k { success := false, data := none,
        error := some "Apps Script bridge not available" } c

/-- `VersionManager.prototype.getVersionCounter` (version-manager.js lines
153-177) under a run oracle. -/
def getVersionCounterRun (o : RunOracle)
    (k : CounterResult → Controller → Controller × List Effect)
    (c : Controller) : Controller × List Effect :=
  if o.bridge then
    andThen (c, [Effect.gatewayCall "getOrIncrementVersionCounter"]) fun c =>
    match o.counterResp with
    | .success counter => k { success := true, counter := counter, error := none } c
    | .failure m => k { success := false, counter := none, error := some m } c
  else
    k { success := false, counter := none,
        error := some "Apps Script bridge not available" } c

/-- `WorkflowController.prototype.generateBeforeVersion` (lines 299-310):
fetch-and-increment the counter, then build the `B` identifier from it. -/
def generateBeforeVersion (o : RunOracle)
    (k : VersionResult → Controller → Controller × List Effect)
    (c : Controller) : Controller × List Effect :=
  getVersionCounterRun o
    (fun counterResult c =>
      if counterResult.success then
        k { success := true,
            versionNumber :=
              generateVersionNumber counterResult.counter "B" o.beforeDate,
            counter := counterResult.counter, error := none } c
      else
        k { success := false, versionNumber := none, counter := none,
            error := counterResult.error } c) c

/-- The export callback of `executePhase1` (lines 186-218): on failure route to
`handleError`, otherwise store artifacts, analyze suggestions, generate the
`B` version, copy it to the clipboard and pause. -/
def phase1AfterExport (o : RunOracle) (exportResult : ExportResult)
    (c : Controller) : Controller × List Effect :=
  if exportResult.success then
    let c := setP1ExportedBase64 c exportResult.data
    let pr := o.processResp
    if pr.success then
      let xml := jsOrStr pr.metadata.modifiedXml pr.modifiedXml
      let c := setP1Xml c xml
      let c := setP1Zip c pr.metadata.zip
      andThen (transitionTo c WState.PHASE_1_ANALYZING) fun c =>
      let c := setP1Suggestions c (o.detector xml)
      generateBeforeVersion o
        (fun versionResult c =>
          if versionResult.success then
            let c := setP1VersionNumber c versionResult.versionNumber
            let c := setVersionCounter c versionResult.counter
            andThen (c, [Effect.clipboardCopy versionResult.versionNumber]) fun c =>
            andThen (transitionTo c WState.VERSION_1_PAUSE) fun c =>
            (c, [Effect.logInfo "WorkflowController"
                   "Phase 1 complete - paused for versioning"])
          else
            handleError c "Failed to generate version number" versionResult.error) c
    else handleError c "Phase 1 DOCX processing failed" (some pr.errors)
  else handleError c "Phase 1 Export failed" exportResult.error

/-- `WorkflowController.prototype.executePhase1` (lines 181-219). -/
def executePhase1 (o : RunOracle) (c : Controller) : Controller × List Effect :=
  andThen (c, [Effect.logInfo "WorkflowController" "Executing Phase 1"]) fun c =>
  andThen (transitionTo c WState.PHASE_1_EXPORTING) fun c =>
  exportDocumentRun o (phase1AfterExport o) c

/-- `WorkflowController.prototype.replaceDocument` (lines 386-501) under a run
oracle. -/
def replaceDocumentRun (o : RunOracle)
    (k : ReplaceResult → Controller → Controller × List Effect)
    (c : Controller) : Controller × List Effect :=
  if o.bridge then
    andThen (addCall o.replaceCallId c,
             [Effect.armTimeout o.replaceCallId replaceTimeoutMs,
              Effect.gatewayCall "replaceDocumentWithProcessedDocx"]) fun c =>
    match o.replaceResp with
    | .timesOut =>
      let r := replaceTimeoutFires o.replaceCallId k c false
      (r.1.1, r.2)
    | .succeeds res =>
      let r := replaceSuccessArrives o.replaceCallId res k c false
      (r.1.1, r.2)
    | .fails m =>
      let r := replaceFailureArrives o.replaceCallId m k c false
      (r.1.1, r.2)
  else
    k { success := false, error := some "Apps Script bridge not available" } c

/-- The replace callback of `executePhase2` (lines 337-365): on failure route
to `handleError` with the reported or defaulted error, otherwise generate the
`A` identifier from the counter fixed in Phase 1, copy it and pause. -/
def phase2AfterReplace (o : RunOracle) (replaceResult : ReplaceResult)
    (c : Controller) : Controller × List Effect :=
  if replaceResult.success then
    let vn := generateVersionNumber c.workflowData.versionCounter "A" o.afterDate
    let c := setP2VersionNumber c vn
    andThen (c, [Effect.clipboardCopy vn]) fun c =>
    andThen (transitionTo c WState.VERSION_2_PAUSE) fun c =>
    (c, [Effect.logInfo "WorkflowController"
           "Phase 2 complete - paused for versioning"])
  else
    handleError c "Phase 2 document replacement failed"
      (jsOrStr replaceResult.error (some "Unknown error - invalid result structure"))

/-- `WorkflowController.prototype.executePhase2` (lines 316-369): transform,
rebuild, convert, replace. -/
def executePhase2 (o : RunOracle) (c : Controller) : Controller × List Effect :=
  andThen (c, [Effect.logInfo "WorkflowController" "Executing Phase 2"]) fun c =>
  andThen (transitionTo c WState.PHASE_2_TRANSFORMING) fun c =>
  let transformedXml :=
    o.transformer c.workflowData.phase1.documentXml c.workflowData.phase1.suggestions
  let c := setP2ModifiedXml c (some transformedXml)
  andThen (transitionTo c WState.PHASE_2_REBUILDING) fun c =>
  let rr := o.rebuildResp
  if rr.success then
    let c := setP2Blob c rr.docxBlob
    let cr := o.convertResp
    if cr.success then
      let c := setP2Base64 c cr.base64Data
      andThen (transitionTo c WState.PHASE_2_REPLACING) fun c =>
      replaceDocumentRun o (phase2AfterReplace o) c
    else handleError c "Phase 2 blob conversion failed" cr.error
  else handleError c "Phase 2 DOCX rebuild failed" rr.error

/-- `VersionManager.prototype.writeVersionHistory` (version-manager.js lines
188-211) under a run oracle. -/
def writeVersionHistoryRun (o : RunOracle)
    (k : WriteResult → Controller → Controller × List Effect)
    (c : Controller) : Controller × List Effect :=
  if o.bridge then
    andThen (c, [Effect.gatewayCall "writeVersionHistoryPage"]) fun c =>
    match o.writeHistoryResp with
    | .success r => k r c
    | .failure m => k { success := false, error := some m } c
  else
    k { success := false, error := some "Apps Script bridge not available" } c

/-- `WorkflowController.prototype.executePhase3` (lines 514-543): generate the
`O` identifier from the same counter, build and validate the version-history
record, and only on valid data call the gateway history write. -/
def executePhase3 (o : RunOracle) (c : Controller) : Controller × List Effect :=
  andThen (c, [Effect.logInfo "WorkflowController"
                 "Executing Phase 3 - Official version"]) fun c =>
  andThen (transitionTo c WState.PHASE_3_FINALIZING) fun c =>
  let officialVersionNumber :=
    generateVersionNumber c.workflowData.versionCounter "O" o.officialDate
  let c := setP2VersionNumber c officialVersionNumber
  let versionData : VersionData :=
    { versionNumber := officialVersionNumber,
      committee := getCommitteeDisplayName c.workflowData.phase3.committee,
      timestamp := some o.nowIso,
      comments := some (formatCommentsText c.workflowData.phase3.comments) }
  let validation := validateVersionData versionData
  if validation.valid then
    writeVersionHistoryRun o
      (fun result c =>
        if result.success then
          andThen (c, [Effect.logInfo "WorkflowController"
                         "Phase 3 complete - version history written"]) fun c =>
          completeWorkflow c
        else handleError c "Phase 3 write history failed" result.error) c
  else
    handleError c "Phase 3 validation failed"
      (some (String.intercalate ", " validation.errors))

/-- `userData` argument of `resumeWorkflow`. -/
structure UserData where
  isOfficial : Bool
  committee : Option String
  comments : Option String
deriving DecidableEq, Repr

/-- `WorkflowController.prototype.startWorkflow` (lines 145-154): a warning
no-op outside `IDLE`, otherwise reset `workflowData` and run Phase 1. -/
def startWorkflow (o : RunOracle) (c : Controller) : Controller × List Effect :=
  if c.currentState = WState.IDLE then
    let c := { c with workflowData := createInitialState }
    executePhase1 o c
  else
    (c, [Effect.logWarn "WorkflowController" "Cannot start - not in IDLE state"])

/-- `WorkflowController.prototype.resumeWorkflow` (lines 156-175): a warning
no-op outside the two pause states; from `VERSION_1_PAUSE` run Phase 2; from
`VERSION_2_PAUSE` either record the official metadata and run Phase 3, or
complete. -/
def resumeWorkflow (o : RunOracle) (userData : Option UserData)
    (c : Controller) : Controller × List Effect :=
  if isPaused c then
    if c.currentState = WState.VERSION_1_PAUSE then executePhase2 o c
    else if c.currentState = WState.VERSION_2_PAUSE then
      match userData with
      | some u =>
        if u.isOfficial then
          let c := setP2IsOfficial c true
          let c := setP3Committee c u.committee
          let c := setP3Comments c u.comments
          executePhase3 o c
        else completeWorkflow c
      | none => completeWorkflow c
    else (c, [])
  else
    (c, [Effect.logWarn "WorkflowController" "Cannot resume - not paused"])

/-! ## Cooperative chunked processing
(`WorkflowController.prototype.chunkProcess`, second module,
workflow-controller.js lines 819-863)

The inner `while` loop of `processChunk` stops a slice when the chunk item
count is reached, the 50 ms wall-clock budget is exhausted, or the data runs
out.  The wall clock is abstracted by `budget k`, the number of items the
50 ms budget admits during slice number `k`; a slice therefore processes
`min chunkSize (budget k)` items.  A processor result that is `null` or
`undefined` (`none` here) is not pushed onto `results`.  Alongside the result
list the model records the trace of indices at which `processor` was invoked;
`onComplete` is modelled by returning the final lists, and `none` models the
run in which `onComplete` is never reached because no slice ever makes
progress. -/

/-- One slice of the `while` loop: process up to `cnt` items starting at
`idx`, returning the new index, the pushed results and the invocation trace. -/
def processItems {α β : Type} (processor : α → Nat → Option β) (arr : List α) :
    Nat → Nat → Nat × List β × List Nat
  | idx, 0 => (idx, [], [])
  | idx, Nat.succ cnt =>
    match arr[idx]? with
    | none => (idx, [], [])
    | some a =>
      let rest := processItems processor arr (idx + 1) cnt
      (rest.1,
       (match processor a idx with
        | some b => b :: rest.2.1
        | none => rest.2.1),
       idx :: rest.2.2)

/-- The `processChunk` loop: run slices until the index reaches the end, then
complete; `fuel` bounds the number of rescheduled slices, and `none` is the
non-terminating run in which slices stop making progress. -/
def chunkRunAux {α β : Type} (processor : α → Nat → Option β) (arr : List α)
    (chunkSize : Nat) (budget : Nat → Nat) :
    Nat → Nat → List β → List Nat → Nat → Option (List β × List Nat)
  | k, idx, accR, accC, fuel =>
    let step := processItems processor arr idx (min chunkSize (budget k))
    let idx' := step.1
    let accR' := accR ++ step.2.1
    let accC' := accC ++ step.2.2
    if arr.length ≤ idx' then some (accR', accC')
    else
      match fuel with
      | 0 => none
      | Nat.succ fuel' => chunkRunAux processor arr chunkSize budget
          (k + 1) idx' accR' accC' fuel'

/-- `WorkflowController.prototype.chunkProcess` (lines 819-863), with the
source's `(dataArray, chunkSize, processor, onComplete)` parameters; the
wall-clock is abstracted by `budget` (see the section comment). -/
def chunkProcess {α β : Type} (dataArray : List α) (chunkSize : Nat)
    (processor : α → Nat → Option β) (budget : Nat → Nat) :
    Option (List β × List Nat) :=
  chunkRunAux processor dataArray chunkSize budget 0 0 [] [] dataArray.length

/-- The processor outcome at one index: `none` when the index is out of range
or the processor returned null/undefined there; used to state which results
`chunkProcess` collects. -/
def probe {α β : Type} (processor : α → Nat → Option β) (arr : List α)
    (i : Nat) : Option β :=
  match arr[i]? with
  | some a => processor a i
  | none => none

/-! ## Reference semantics of `workflowData` hand-off

`emitStateChange` (lines 122-127) stores `this.workflowData` itself in the
event detail, while `getWorkflowData` (lines 600-602) returns
`Base.deepClone(this.workflowData)`.  To reason about aliasing, objects live
in an explicit heap of `WorkflowData` records addressed by index, and a
listener mutating the record it received is a write through the address it
holds. -/

/-- A heap of `WorkflowData` objects; an address is an index. -/
structure Heap where
  objs : List WorkflowData
deriving DecidableEq, Repr

/-- Dereference an address. -/
def Heap.get (h : Heap) (r : Nat) : WorkflowData :=
  h.objs.getD r createInitialState

/-- Overwrite the object at an address. -/
def Heap.put (h : Heap) (r : Nat) (d : WorkflowData) : Heap :=
  ⟨h.objs.set r d⟩

/-- Allocate a fresh object, returning its address. -/
def Heap.alloc (h : Heap) (d : WorkflowData) : Heap × Nat :=
  (⟨h.objs ++ [d]⟩, h.objs.length)

/-- A controller holding its `workflowData` by reference. -/
structure ControllerRef where
  currentState : WState
  workflowDataRef : Nat
deriving DecidableEq, Repr

/-- The `workflowStateChange` event detail (lines 122-127): old state, new
state, and — per the source `workflowData: this.workflowData` — the
controller's own object reference, not a copy. -/
structure StateChangeDetail where
  oldState : String
  newState : String
  workflowDataRef : Nat
deriving DecidableEq, Repr

/-- `WorkflowController.prototype.emitStateChange` in the heap model. -/
def emitStateChangeRef (c : ControllerRef) (oldState newState : String) :
    StateChangeDetail :=
  { oldState := oldState, newState := newState,
    workflowDataRef := c.workflowDataRef }

/-- Modelled from the spec: `Base.deepClone` (the `Base` module is not under
src/); per the spec a deep copy, i.e. a freshly allocated object holding an
equal value, sharing no structure with the original. -/
def deepClone (h : Heap) (r : Nat) : Heap × Nat :=
  h.alloc (h.get r)

/-- `WorkflowController.prototype.getWorkflowData` (lines 600-602):
`Base.deepClone(this.workflowData)`. -/
def getWorkflowDataRef (h : Heap) (c : ControllerRef) : Heap × Nat :=
  deepClone h c.workflowDataRef

/-- A listener mutating the record it received: a write through the address it
holds. -/
def mutateThrough (h : Heap) (r : Nat) (f : WorkflowData → WorkflowData) : Heap :=
  h.put r (f (h.get r))

/-! ## Concrete fixtures used by the witness theorems -/

/-- A run oracle in which the bridge is up and every collaborator succeeds. -/
def defaultOracle : RunOracle :=
  { bridge := true,
    exportCallId := "export_100",
    exportResp := .succeeds (some { success := true, data := some "UEsDBA",
                                    error := none }),
    processResp := { success := true,
                     metadata := { modifiedXml := some "<w:document/>",
                                   zip := some 1 },
                     modifiedXml := none, errors := "" },
    detector := fun _ => [{ type := "insertion" }],
    counterResp := .success (some 1),
    beforeDate := { fullYear := 2025, month0 := 9, date := 4, hours := 9,
                    minutes := 15, seconds := 30 },
    transformer := fun _ _ => "<w:document-transformed/>",
    rebuildResp := { success := true, docxBlob := some 2, error := none },
    convertResp := { success := true, base64Data := some "UEsDBB",
                     error := none },
    replaceCallId := "replace_200",
    replaceResp := .succeeds (some { success := true, error := none }),
    afterDate := { fullYear := 2025, month0 := 9, date := 4, hours := 9,
                   minutes := 40, seconds := 5 },
    officialDate := { fullYear := 2025, month0 := 9, date := 4, hours := 10,
                      minutes := 2, seconds := 11 },
    nowIso := "2025-10-04T10:02:11.000Z",
    writeHistoryResp := .success { success := true, error := none } }

/-- A controller sitting in `ERROR` with one tracked call. -/
def cErr : Controller :=
  { currentState := WState.ERROR, workflowData := createInitialState,
    activeServerCalls := ["export_100"] }

/-- A controller sitting at the second pause. -/
def cPause2 : Controller :=
  { currentState := WState.VERSION_2_PAUSE, workflowData := createInitialState,
    activeServerCalls := [] }

/-- A heap holding exactly one `WorkflowData` object. -/
def heap0 : Heap := ⟨[createInitialState]⟩

/-- A controller referring to the single object of `heap0`. -/
def cRef0 : ControllerRef := { currentState := WState.IDLE, workflowDataRef := 0 }

/-- A listener mutation: overwrite `versionCounter`. -/
def cexMutator (d : WorkflowData) : WorkflowData :=
  { d with versionCounter := some 99 }

/-- Discriminator for `workflowError` dispatches in an effect trace. -/
def isErrorEvent : Effect → Bool
  | .errorEvent _ _ _ _ => true
  | _ => false

/-! ## Claim theorems -/

/-- Claim C1: for every sequence of `startWorkflow` / `resumeWorkflow` /
`reset` calls, calling `startWorkflow` outside `IDLE`, or `resumeWorkflow`
outside the two pause states, is a no-op that logs a warning and leaves the
controller — its state, its `workflowData` and its tracked calls — unchanged.
Stated over an arbitrary controller value, which covers every reachable
one. -/
theorem claim1_invalid_call_noop (o : RunOracle) (ud : Option UserData)
    (c : Controller) :
    (c.currentState ≠ WState.IDLE →
      startWorkflow o c =
        (c, [Effect.logWarn "WorkflowController"
               "Cannot start - not in IDLE state"])) ∧
    (c.currentState ≠ WState.VERSION_1_PAUSE →
      c.currentState ≠ WState.VERSION_2_PAUSE →
      resumeWorkflow o ud c =
        (c, [Effect.logWarn "WorkflowController" "Cannot resume - not paused"])) := by
  constructor
  · intro h
    simp [startWorkflow, h]
  · intro h1 h2
    simp [resumeWorkflow, isPaused, h1, h2]

/-- Witness for C1: at the concrete controller `cErr` (state `ERROR`), both
guards fire and both calls are warning no-ops. -/
theorem claim1_invalid_call_noop_witness :
    (cErr.currentState ≠ WState.IDLE ∧
      startWorkflow defaultOracle cErr =
        (cErr, [Effect.logWarn "WorkflowController"
                  "Cannot start - not in IDLE state"])) ∧
    (cErr.currentState ≠ WState.VERSION_1_PAUSE ∧
      cErr.currentState ≠ WState.VERSION_2_PAUSE ∧
      resumeWorkflow defaultOracle none cErr =
        (cErr, [Effect.logWarn "WorkflowController" "Cannot resume - not paused"])) :=
  ⟨⟨by decide, (claim1_invalid_call_noop defaultOracle none cErr).1 (by decide)⟩,
   ⟨by decide, by decide,
    (claim1_invalid_call_noop defaultOracle none cErr).2 (by decide) (by decide)⟩⟩

/-- Claim C9, counterexample: `handleError` reads `self.currentState` after
`transitionTo(ERROR)`, so for a failure hitting a controller in
`PHASE_1_EXPORTING` the dispatched `workflowError` carries state `"ERROR"`,
not the state at the moment of failure. -/
theorem claim9_counterexample :
    Effect.errorEvent "Phase 1 Export failed" (some "boom")
        (stateName WState.PHASE_1_EXPORTING) createInitialState ∉
      (handleError
        { currentState := WState.PHASE_1_EXPORTING,
          workflowData := createInitialState, activeServerCalls := [] }
        "Phase 1 Export failed" (some "boom")).2 ∧
    Effect.errorEvent "Phase 1 Export failed" (some "boom")
        (stateName WState.ERROR) createInitialState ∈
      (handleError
        { currentState := WState.PHASE_1_EXPORTING,
          workflowData := createInitialState, activeServerCalls := [] }
        "Phase 1 Export failed" (some "boom")).2 := by
  constructor
  · decide
  · decide

/-- Claim C9, amended: every failure routed through `handleError` transitions
the controller to `ERROR` and dispatches exactly one `workflowError` event,
whose payload carries the message, the cause and the current `workflowData`,
but whose `state` field is the post-transition state `"ERROR"` (the
state-at-failure appears only in the log, not in the event payload); and no
further automatic progress is possible — `startWorkflow` and `resumeWorkflow`
are warning no-ops from `ERROR` — until `reset` returns the controller to
`IDLE`. -/
theorem claim9_amended (c : Controller) (msg : String) (cause : Option String)
    (o : RunOracle) (ud : Option UserData) :
    (handleError c msg cause).1.currentState = WState.ERROR ∧
    (handleError c msg cause).1.workflowData = c.workflowData ∧
    (handleError c msg cause).2.filter isErrorEvent =
      [Effect.errorEvent msg cause "ERROR" c.workflowData] ∧
    startWorkflow o (handleError c msg cause).1 =
      ((handleError c msg cause).1,
       [Effect.logWarn "WorkflowController" "Cannot start - not in IDLE state"]) ∧
    resumeWorkflow o ud (handleError c msg cause).1 =
      ((handleError c msg cause).1,
       [Effect.logWarn "WorkflowController" "Cannot resume - not paused"]) ∧
    (reset (handleError c msg cause).1).1.currentState = WState.IDLE := by
  refine ⟨rfl, rfl, ?_, ?_, ?_, rfl⟩
  · simp [handleError, andThen, transitionTo, stateName, isErrorEvent]
  · simp [handleError, andThen, transitionTo, startWorkflow]
  · simp [handleError, andThen, transitionTo, resumeWorkflow, isPaused]

/-- Claim C8, counterexample: the `workflowStateChange` detail holds the
controller's own `workflowData` reference, so a listener mutating the record
it received does change the controller's internal `workflowData`. -/
theorem claim8_counterexample :
    (mutateThrough heap0
        (emitStateChangeRef cRef0 "IDLE" "PHASE_1_EXPORTING").workflowDataRef
        cexMutator).get cRef0.workflowDataRef ≠
      heap0.get cRef0.workflowDataRef := by
  decide

/-- Claim C8, amended: `getWorkflowData` does return a defensive deep copy —
mutating the record it returns leaves the controller's internal `workflowData`
unchanged — but state-change notifications hand listeners the internal
`workflowData` object itself (the event detail aliases the controller's
reference), not a deep copy. -/
theorem claim8_amended (h : Heap) (c : ControllerRef)
    (f : WorkflowData → WorkflowData) (oldS newS : String)
    (hr : c.workflowDataRef < h.objs.length) :
    (mutateThrough (getWorkflowDataRef h c).1 (getWorkflowDataRef h c).2
        f).get c.workflowDataRef = h.get c.workflowDataRef ∧
    (emitStateChangeRef c oldS newS).workflowDataRef = c.workflowDataRef := by
  refine ⟨?_, rfl⟩
  have hne : h.objs.length ≠ c.workflowDataRef := Nat.ne_of_gt hr
  simp only [getWorkflowDataRef, deepClone, Heap.alloc, Heap.get, mutateThrough,
    Heap.put, List.getD_eq_getElem?_getD]
  rw [List.getElem?_set_ne hne, List.getElem?_append_left hr]

/-- Witness for C8 (amended): the single-object heap `heap0` with reference 0. -/
theorem claim8_amended_witness :
    cRef0.workflowDataRef < heap0.objs.length ∧
    ((mutateThrough (getWorkflowDataRef heap0 cRef0).1
         (getWorkflowDataRef heap0 cRef0).2 cexMutator).get
         cRef0.workflowDataRef = heap0.get cRef0.workflowDataRef ∧
     (emitStateChangeRef cRef0 "IDLE" "PHASE_1_EXPORTING").workflowDataRef =
       cRef0.workflowDataRef) :=
  ⟨by decide,
   claim8_amended heap0 cRef0 cexMutator "IDLE" "PHASE_1_EXPORTING" (by decide)⟩

/-- Claim C10: `parseVersionNumber` succeeds on every string with exactly 8
colon-delimited fields without checking that the numeric fields are numeric
(on `"x:B:aa:bb:cc:dd:ee:ff"` every numeric field parses to `NaN`, modelled as
`none`), and `validateVersionData` accepts a record carrying that version
number as long as committee, timestamp and comments are non-empty. -/
theorem claim10_parse_no_numeric_check (s : String)
    (committee timestamp comments : String) :
    ((jsSplitColon s).length = 8 → (parseVersionNumber s).isSome) ∧
    parseVersionNumber "x:B:aa:bb:cc:dd:ee:ff" =
      some { sequential := none, type := "B", year := none, month := none,
             day := none, hour := none, minute := none, second := none } ∧
    (committee ≠ "" → timestamp ≠ "" → comments ≠ "" →
      (validateVersionData
        { versionNumber := some "x:B:aa:bb:cc:dd:ee:ff",
          committee := some committee, timestamp := some timestamp,
          comments := some comments }).valid = true) := by
  refine ⟨fun h => by simp [parseVersionNumber, h], by decide, fun h1 h2 h3 => ?_⟩
  simp [validateVersionData, truthyS, h1, h2, h3]
  decide

/-- Witness for C10: a concrete 8-field string and concrete non-empty
metadata. -/
theorem claim10_witness :
    (jsSplitColon "a:b:c:d:e:f:g:h").length = 8 ∧
    (parseVersionNumber "a:b:c:d:e:f:g:h").isSome ∧
    ("C" ≠ "" ∧ "T" ≠ "" ∧ "ok" ≠ "") ∧
    (validateVersionData
      { versionNumber := some "x:B:aa:bb:cc:dd:ee:ff", committee := some "C",
        timestamp := some "T", comments := some "ok" }).valid = true :=
  ⟨by decide,
   (claim10_parse_no_numeric_check "a:b:c:d:e:f:g:h" "C" "T" "ok").1 (by decide),
   ⟨by decide, by decide, by decide⟩,
   (claim10_parse_no_numeric_check "a:b:c:d:e:f:g:h" "C" "T" "ok").2.2
     (by decide) (by decide) (by decide)⟩

/-- Claim C2: for each tracked remote call (export, replace), once its
timeout has fired — which untracks the call identifier before invoking the
phase callback — any later completion of that call (its success handler or its
failure handler) leaves the whole controller, hence the workflow state and
`workflowData`, unchanged: the handlers find the identifier untracked and
return after a warning, causing no state transition. -/
theorem claim2_stale_call_immunity (o : RunOracle) (c : Controller)
    (cid : String) (res : Option ExportResult) (rres : Option ReplaceResult)
    (m1 m2 : String) (h : cid ∈ c.activeServerCalls) :
    (cid ∉ (exportTimeoutFires cid (phase1AfterExport o) c).1.activeServerCalls ∧
     exportSuccessArrives cid res (phase1AfterExport o)
         (exportTimeoutFires cid (phase1AfterExport o) c).1 =
       ((exportTimeoutFires cid (phase1AfterExport o) c).1,
        [Effect.logWarn "WorkflowController"
           "Export success handler called after timeout/cleanup"]) ∧
     exportFailureArrives cid m1 (phase1AfterExport o)
         (exportTimeoutFires cid (phase1AfterExport o) c).1 =
       ((exportTimeoutFires cid (phase1AfterExport o) c).1,
        [Effect.logWarn "WorkflowController"
           "Export failure handler called after timeout/cleanup"])) ∧
    (cid ∉ (replaceTimeoutFires cid (phase2AfterReplace o) c
        false).1.1.activeServerCalls ∧
     replaceSuccessArrives cid rres (phase2AfterReplace o)
         (replaceTimeoutFires cid (phase2AfterReplace o) c false).1.1
         (replaceTimeoutFires cid (phase2AfterReplace o) c false).1.2 =
       (((replaceTimeoutFires cid (phase2AfterReplace o) c false).1.1,
         (replaceTimeoutFires cid (phase2AfterReplace o) c false).1.2),
        [Effect.logWarn "WorkflowController"
           "Replace success handler called after cleanup"]) ∧
     replaceFailureArrives cid m2 (phase2AfterReplace o)
         (replaceTimeoutFires cid (phase2AfterReplace o) c false).1.1
         (replaceTimeoutFires cid (phase2AfterReplace o) c false).1.2 =
       (((replaceTimeoutFires cid (phase2AfterReplace o) c false).1.1,
         (replaceTimeoutFires cid (phase2AfterReplace o) c false).1.2),
        [Effect.logWarn "WorkflowController"
           "Replace failure handler called after cleanup"])) := by
  have e1 : (exportTimeoutFires cid (phase1AfterExport o) c).1.activeServerCalls
      = c.activeServerCalls.filter (fun x => x ≠ cid) := by
    simp [exportTimeoutFires, h, andThen, phase1AfterExport, handleError,
      transitionTo, removeCall]
  have hm1 : cid ∉ (exportTimeoutFires cid (phase1AfterExport o) c).1.activeServerCalls := by
    rw [e1]; simp
  have e2 : (replaceTimeoutFires cid (phase2AfterReplace o) c
      false).1.1.activeServerCalls
      = c.activeServerCalls.filter (fun x => x ≠ cid) := by
    simp [replaceTimeoutFires, h, phase2AfterReplace, handleError, andThen,
      transitionTo, removeCall, jsOrStr]
  have hm2 : cid ∉ (replaceTimeoutFires cid (phase2AfterReplace o) c
      false).1.1.activeServerCalls := by
    rw [e2]; simp
  refine ⟨⟨hm1, ?_, ?_⟩, hm2, ?_, ?_⟩
  · simp [exportSuccessArrives, hm1]
  · simp [exportFailureArrives, hm1]
  · simp [replaceSuccessArrives, hm2]
  · simp [replaceFailureArrives, hm2]

/-- Witness for C2: the controller `cErr` tracks call `export_100`; after its
timeout fires, the late success and failure handlers are warning no-ops, for
export and replace alike. -/
theorem claim2_stale_call_immunity_witness :
    "export_100" ∈ cErr.activeServerCalls ∧
    (("export_100" ∉ (exportTimeoutFires "export_100"
          (phase1AfterExport defaultOracle) cErr).1.activeServerCalls ∧
      exportSuccessArrives "export_100" none (phase1AfterExport defaultOracle)
          (exportTimeoutFires "export_100" (phase1AfterExport defaultOracle)
            cErr).1 =
        ((exportTimeoutFires "export_100" (phase1AfterExport defaultOracle)
            cErr).1,
         [Effect.logWarn "WorkflowController"
            "Export success handler called after timeout/cleanup"]) ∧
      exportFailureArrives "export_100" "late"
          (phase1AfterExport defaultOracle)
          (exportTimeoutFires "export_100" (phase1AfterExport defaultOracle)
            cErr).1 =
        ((exportTimeoutFires "export_100" (phase1AfterExport defaultOracle)
            cErr).1,
         [Effect.logWarn "WorkflowController"
            "Export failure handler called after timeout/cleanup"])) ∧
     ("export_100" ∉ (replaceTimeoutFires "export_100"
          (phase2AfterReplace defaultOracle) cErr false).1.1.activeServerCalls ∧
      replaceSuccessArrives "export_100" none (phase2AfterReplace defaultOracle)
          (replaceTimeoutFires "export_100" (phase2AfterReplace defaultOracle)
            cErr false).1.1
          (replaceTimeoutFires "export_100" (phase2AfterReplace defaultOracle)
            cErr false).1.2 =
        (((replaceTimeoutFires "export_100" (phase2AfterReplace defaultOracle)
             cErr false).1.1,
          (replaceTimeoutFires "export_100" (phase2AfterReplace defaultOracle)
             cErr false).1.2),
         [Effect.logWarn "WorkflowController"
            "Replace success handler called after cleanup"]) ∧
      replaceFailureArrives "export_100" "late"
          (phase2AfterReplace defaultOracle)
          (replaceTimeoutFires "export_100" (phase2AfterReplace defaultOracle)
            cErr false).1.1
          (replaceTimeoutFires "export_100" (phase2AfterReplace defaultOracle)
            cErr false).1.2 =
        (((replaceTimeoutFires "export_100" (phase2AfterReplace defaultOracle)
             cErr false).1.1,
          (replaceTimeoutFires "export_100" (phase2AfterReplace defaultOracle)
             cErr false).1.2),
         [Effect.logWarn "WorkflowController"
            "Replace failure handler called after cleanup"]))) :=
  ⟨by decide,
   claim2_stale_call_immunity defaultOracle cErr "export_100" none none
     "late" "late" (by decide)⟩

/-- Claim C7: the timeout policy values are 30 seconds for export and 60
seconds for replace — those are the durations armed before the gateway call in
each phase — and a timeout firing while its call is still tracked routes
through `handleError`, transitioning the workflow to `ERROR` with a
timeout-specific message in the `workflowError` payload rather than leaving it
in a transitional state. -/
theorem claim7_timeout_policy (o : RunOracle) (c : Controller) (cid : String) :
    exportTimeoutMs = 30000 ∧ replaceTimeoutMs = 60000 ∧
    (o.bridge = true →
      Effect.armTimeout o.exportCallId exportTimeoutMs ∈ (executePhase1 o c).2) ∧
    (o.bridge = true → o.rebuildResp.success = true →
      o.convertResp.success = true →
      Effect.armTimeout o.replaceCallId replaceTimeoutMs ∈ (executePhase2 o c).2) ∧
    (cid ∈ c.activeServerCalls →
      (exportTimeoutFires cid (phase1AfterExport o) c).1.currentState =
          WState.ERROR ∧
      Effect.errorEvent "Phase 1 Export failed"
          (some "Export operation timed out") (stateName WState.ERROR)
          c.workflowData ∈ (exportTimeoutFires cid (phase1AfterExport o) c).2) ∧
    (cid ∈ c.activeServerCalls →
      (replaceTimeoutFires cid (phase2AfterReplace o) c false).1.1.currentState =
          WState.ERROR ∧
      Effect.errorEvent "Phase 2 document replacement failed"
          (some "Document replacement timed out after 60 seconds")
          (stateName WState.ERROR) c.workflowData ∈
        (replaceTimeoutFires cid (phase2AfterReplace o) c false).2) := by
  refine ⟨rfl, rfl, ?_, ?_, ?_, ?_⟩
  · intro hb
    simp [executePhase1, andThen, transitionTo, exportDocumentRun, hb]
  · intro hb hr hc
    simp [executePhase2, andThen, transitionTo, replaceDocumentRun, hb, hr, hc]
  · intro h
    constructor
    · simp [exportTimeoutFires, h, andThen, phase1AfterExport, handleError,
        transitionTo, removeCall]
    · simp [exportTimeoutFires, h, andThen, phase1AfterExport, handleError,
        transitionTo, removeCall, stateName]
  · intro h
    constructor
    · simp [replaceTimeoutFires, h, phase2AfterReplace, handleError, andThen,
        transitionTo, removeCall, jsOrStr]
    · simp [replaceTimeoutFires, h, phase2AfterReplace, handleError, andThen,
        transitionTo, removeCall, jsOrStr, stateName]

/-- Witness for C7: under `defaultOracle` (bridge up, rebuild and convert
succeed) both timeouts are armed with their policy values, and a timeout on
the tracked call of `cErr` lands the workflow in `ERROR` with the
timeout-specific messages. -/
theorem claim7_timeout_policy_witness :
    (defaultOracle.bridge = true ∧ defaultOracle.rebuildResp.success = true ∧
     defaultOracle.convertResp.success = true ∧
     "export_100" ∈ cErr.activeServerCalls) ∧
    (Effect.armTimeout defaultOracle.exportCallId exportTimeoutMs ∈
       (executePhase1 defaultOracle cErr).2 ∧
     Effect.armTimeout defaultOracle.replaceCallId replaceTimeoutMs ∈
       (executePhase2 defaultOracle cErr).2 ∧
     (exportTimeoutFires "export_100" (phase1AfterExport defaultOracle)
        cErr).1.currentState = WState.ERROR ∧
     (replaceTimeoutFires "export_100" (phase2AfterReplace defaultOracle)
        cErr false).1.1.currentState = WState.ERROR) :=
  ⟨⟨by decide, by decide, by decide, by decide⟩,
   (claim7_timeout_policy defaultOracle cErr "export_100").2.2.1 (by decide),
   (claim7_timeout_policy defaultOracle cErr "export_100").2.2.2.1
     (by decide) (by decide) (by decide),
   ((claim7_timeout_policy defaultOracle cErr "export_100").2.2.2.2.1
     (by decide)).1,
   ((claim7_timeout_policy defaultOracle cErr "export_100").2.2.2.2.2
     (by decide)).1⟩

/-- A version-history record with a falsy committee never validates. -/
theorem validate_invalid_of_committee (vd : VersionData)
    (h : truthyS vd.committee = false) :
    (validateVersionData vd).valid = false := by
  simp [validateVersionData, h]

/-- `executePhase3` on a controller whose committee renders falsy fails
validation: it ends in `ERROR` and never reaches the gateway history write. -/
theorem executePhase3_invalid_committee (o : RunOracle) (c : Controller)
    (hc : truthyS (getCommitteeDisplayName c.workflowData.phase3.committee) = false) :
    (executePhase3 o c).1.currentState = WState.ERROR ∧
    Effect.gatewayCall "writeVersionHistoryPage" ∉ (executePhase3 o c).2 := by
  have hval : ∀ vn ts cm, (validateVersionData
      { versionNumber := vn,
        committee := getCommitteeDisplayName c.workflowData.phase3.committee,
        timestamp := ts, comments := cm }).valid = false :=
    fun _ _ _ => validate_invalid_of_committee _ hc
  simp only [executePhase3, andThen, transitionTo, setP2VersionNumber, hval]
  constructor
  · simp [handleError, andThen, transitionTo]
  · simp [handleError, andThen, transitionTo]

/-- Claim C4: `resumeWorkflow` with official metadata whose committee and
comments are empty, from `VERSION_2_PAUSE`, ends in `ERROR` (not in a
completed Phase 3), and the gateway history-write operation
`writeVersionHistoryPage` is never invoked — validation fails first. -/
theorem claim4_validation_gate (o : RunOracle) (c : Controller)
    (h : c.currentState = WState.VERSION_2_PAUSE) :
    (resumeWorkflow o
        (some { isOfficial := true, committee := some "", comments := some "" })
        c).1.currentState = WState.ERROR ∧
    Effect.gatewayCall "writeVersionHistoryPage" ∉
      (resumeWorkflow o
        (some { isOfficial := true, committee := some "", comments := some "" })
        c).2 := by
  have hres : resumeWorkflow o
      (some { isOfficial := true, committee := some "", comments := some "" }) c =
      executePhase3 o
        (setP3Comments (setP3Committee (setP2IsOfficial c true) (some ""))
          (some "")) := by
    simp [resumeWorkflow, isPaused, h]
  rw [hres]
  exact executePhase3_invalid_committee o _ (by rfl)

/-- Witness for C4: the concrete controller `cPause2` at `VERSION_2_PAUSE`. -/
theorem claim4_validation_gate_witness :
    cPause2.currentState = WState.VERSION_2_PAUSE ∧
    ((resumeWorkflow defaultOracle
        (some { isOfficial := true, committee := some "", comments := some "" })
        cPause2).1.currentState = WState.ERROR ∧
     Effect.gatewayCall "writeVersionHistoryPage" ∉
       (resumeWorkflow defaultOracle
         (some { isOfficial := true, committee := some "", comments := some "" })
         cPause2).2) :=
  ⟨by decide, claim4_validation_gate defaultOracle cPause2 (by decide)⟩

/-! ### Decimal rendering vs `parseInt`: helper lemmas -/

theorem natToCharsAux_zero (n : Nat) : natToCharsAux 0 n = [digitChar n] := rfl

theorem natToCharsAux_succ (f n : Nat) :
    natToCharsAux (f + 1) n =
      if n < 10 then [digitChar n]
      else natToCharsAux f (n / 10) ++ [digitChar (n % 10)] := rfl

theorem natToCharsAux_irrel (f1 : Nat) : ∀ (f2 n : Nat), n ≤ f1 → n ≤ f2 →
    natToCharsAux f1 n = natToCharsAux f2 n := by
  induction f1 with
  | zero =>
    intro f2 n h1 _
    have hn : n = 0 := by omega
    subst hn
    cases f2 with
    | zero => rfl
    | succ f2' => rw [natToCharsAux_zero, natToCharsAux_succ, if_pos (by omega)]
  | succ f1' ih =>
    intro f2 n h1 h2
    cases f2 with
    | zero =>
      have hn : n = 0 := by omega
      subst hn
      rw [natToCharsAux_zero, natToCharsAux_succ, if_pos (by omega)]
    | succ f2' =>
      by_cases hn : n < 10
      · rw [natToCharsAux_succ, natToCharsAux_succ, if_pos hn, if_pos hn]
      · rw [natToCharsAux_succ, natToCharsAux_succ, if_neg hn, if_neg hn]
        rw [ih f2' (n / 10) (by omega) (by omega)]

theorem natToChars_eq (n : Nat) :
    natToChars n = if n < 10 then [digitChar n]
                   else natToChars (n / 10) ++ [digitChar (n % 10)] := by
  by_cases hn : n < 10
  · rw [natToChars, natToCharsAux_irrel n (n + 1) n le_rfl (by omega)]
    rw [natToCharsAux_succ, if_pos hn, if_pos hn]
  · rw [natToChars, natToCharsAux_irrel n (n + 1) n le_rfl (by omega)]
    rw [natToCharsAux_succ, if_neg hn, if_neg hn]
    rw [natToCharsAux_irrel n (n / 10) (n / 10) (by omega) le_rfl]
    rfl

theorem digitChar_isDigit (d : Nat) (h : d < 10) : (digitChar d).isDigit = true := by
  interval_cases d <;> decide

theorem digitChar_val (d : Nat) (h : d < 10) : (digitChar d).toNat - 48 = d := by
  interval_cases d <;> decide

theorem natToChars_ne_nil (n : Nat) : natToChars n ≠ [] := by
  rw [natToChars_eq]
  split <;> simp

theorem natToChars_digits (n : Nat) : ∀ c ∈ natToChars n, c.isDigit = true := by
  induction n using Nat.strong_induction_on with
  | _ n ih =>
    rw [natToChars_eq]
    by_cases hn : n < 10
    · simp only [hn, if_true, List.mem_singleton]
      rintro c rfl
      exact digitChar_isDigit n hn
    · simp only [hn, if_false, List.mem_append, List.mem_singleton]
      rintro c (hc | rfl)
      · exact ih (n / 10) (by omega) c hc
      · exact digitChar_isDigit (n % 10) (by omega)

theorem digitsValAux_nil (acc : Nat) : digitsValAux acc [] = acc := rfl

theorem digitsValAux_cons (acc : Nat) (c : Char) (l : List Char) :
    digitsValAux acc (c :: l) = digitsValAux (acc * 10 + (c.toNat - 48)) l := rfl

theorem digitsValAux_append (l1 l2 : List Char) : ∀ acc,
    digitsValAux acc (l1 ++ l2) = digitsValAux (digitsValAux acc l1) l2 := by
  induction l1 with
  | nil => intro acc; rfl
  | cons c l ih =>
    intro acc
    rw [List.cons_append, digitsValAux_cons, digitsValAux_cons, ih]

theorem digitsValAux_natToChars (n : Nat) : ∀ acc,
    digitsValAux acc (natToChars n) =
      acc * 10 ^ (natToChars n).length + n := by
  induction n using Nat.strong_induction_on with
  | _ n ih =>
    intro acc
    rw [natToChars_eq]
    by_cases hn : n < 10
    · rw [if_pos hn, digitsValAux_cons, digitsValAux_nil,
        digitChar_val n hn, List.length_singleton, pow_one]
    · rw [if_neg hn, digitsValAux_append, ih (n / 10) (by omega) acc,
        digitsValAux_cons, digitsValAux_nil,
        digitChar_val (n % 10) (by omega),
        List.length_append, List.length_singleton, pow_succ]
      have hx : (acc * 10 ^ (natToChars (n / 10)).length + n / 10) * 10 =
          acc * (10 ^ (natToChars (n / 10)).length * 10) + n / 10 * 10 := by
        ring
      rw [hx, add_assoc]
      congr 1
      omega

theorem digitsValAux_natToChars_zero (n : Nat) :
    digitsValAux 0 (natToChars n) = n := by
  simpa using digitsValAux_natToChars n 0

theorem isDigit_not_space (c : Char) (h : c.isDigit = true) :
    jsIsSpace c = false := by
  cases hs : jsIsSpace c
  · rfl
  · exfalso
    simp only [jsIsSpace, Bool.or_eq_true, decide_eq_true_eq] at hs
    rcases hs with ((((h' | h') | h') | h') | h') | h' <;> subst h' <;>
      exact absurd h (by decide)

theorem takeWhile_of_all (p : Char → Bool) (l : List Char)
    (h : ∀ c ∈ l, p c = true) : l.takeWhile p = l := by
  induction l with
  | nil => rfl
  | cons c rest ih =>
    rw [List.takeWhile_cons, h c (List.mem_cons_self c rest),
        ih (fun c hc => h c (List.mem_cons_of_mem _ hc))]
    simp

theorem jsParseIntChars_digits (l : List Char) (hl : l ≠ [])
    (hd : ∀ c ∈ l, c.isDigit = true) :
    jsParseIntChars l = some ((digitsValAux 0 l : Nat) : Int) := by
  obtain ⟨c, rest, rfl⟩ := List.exists_cons_of_ne_nil hl
  have hc := hd c (List.mem_cons_self c rest)
  have hdash : c ≠ '-' := by rintro rfl; simp at hc
  have hplus : c ≠ '+' := by rintro rfl; simp at hc
  unfold jsParseIntChars
  rw [List.dropWhile_cons, isDigit_not_space c hc]
  simp only [Bool.false_eq_true, if_false]
  rw [if_neg hdash, if_neg hplus]
  unfold parseDigitsPrefix
  rw [takeWhile_of_all _ _ hd]
  simp

theorem digitsValAux_replicate_zero (k : Nat) : ∀ acc,
    digitsValAux acc (List.replicate k '0') = acc * 10 ^ k := by
  induction k with
  | zero =>
    intro acc
    rw [List.replicate_zero, digitsValAux_nil, pow_zero, mul_one]
  | succ k ih =>
    intro acc
    rw [List.replicate_succ, digitsValAux_cons]
    have h0 : ('0' : Char).toNat - 48 = 0 := by decide
    rw [h0, Nat.add_zero, ih, pow_succ]
    ring

theorem padStart2C_digits (l : List Char) (h : ∀ c ∈ l, c.isDigit = true) :
    ∀ c ∈ padStart2C l, c.isDigit = true := by
  unfold padStart2C
  split
  · intro c hc
    rcases List.mem_append.mp hc with hc | hc
    · have := List.eq_of_mem_replicate hc
      subst this; decide
    · exact h c hc
  · exact h

theorem padStart2C_ne_nil (l : List Char) (h : l ≠ []) : padStart2C l ≠ [] := by
  unfold padStart2C
  split
  · simp only [ne_eq, List.append_eq_nil]
    rintro ⟨-, h2⟩
    exact h h2
  · exact h

theorem digitsValAux_padStart2C (l : List Char) :
    digitsValAux 0 (padStart2C l) = digitsValAux 0 l := by
  unfold padStart2C
  split
  · rw [digitsValAux_append, digitsValAux_replicate_zero]
    simp
  · rfl

theorem parse_padStart2C_natToChars (v : Nat) :
    jsParseIntChars (padStart2C (natToChars v)) = some ((v : Nat) : Int) := by
  rw [jsParseIntChars_digits _
        (padStart2C_ne_nil _ (natToChars_ne_nil v))
        (padStart2C_digits _ (natToChars_digits v))]
  rw [digitsValAux_padStart2C, digitsValAux_natToChars_zero]

theorem natToChars_drop_last (m : Nat) :
    (natToChars m).drop ((natToChars m).length - 1) = [digitChar (m % 10)] := by
  rw [natToChars_eq]
  by_cases hm : m < 10
  · simp only [hm, if_true, List.length_singleton]
    rw [Nat.mod_eq_of_lt hm]
    simp
  · simp only [hm, if_false, List.length_append, List.length_singleton]
    have : (natToChars (m / 10)).length + 1 - 1 = (natToChars (m / 10)).length := by
      omega
    rw [this, List.drop_left]

theorem sliceNeg2C_natToChars (n : Nat) :
    sliceNeg2C (natToChars n) =
      if n < 10 then [digitChar n]
      else [digitChar (n / 10 % 10), digitChar (n % 10)] := by
  by_cases hn : n < 10
  · simp only [hn, if_true]
    conv_lhs => rw [natToChars_eq]
    simp only [hn, if_true, sliceNeg2C, List.length_singleton]
    rfl
  · simp only [hn, if_false]
    conv_lhs => rw [natToChars_eq]
    simp only [hn, if_false, sliceNeg2C, List.length_append, List.length_singleton]
    rw [List.drop_append_eq_append_drop]
    have hlen : (natToChars (n / 10)).length + 1 - 2 =
        (natToChars (n / 10)).length - 1 := by omega
    have hle : (natToChars (n / 10)).length - 1 ≤ (natToChars (n / 10)).length := by
      omega
    rw [hlen, natToChars_drop_last (n / 10)]
    have h2 : (natToChars (n / 10)).length - 1 - (natToChars (n / 10)).length = 0 := by
      omega
    rw [h2]
    rfl

theorem parse_year_slice (n : Nat) :
    jsParseIntChars (padStart2C (sliceNeg2C (natToChars n))) =
      some ((n % 100 : Nat) : Int) := by
  rw [sliceNeg2C_natToChars]
  by_cases hn : n < 10
  · rw [if_pos hn]
    have hpad : padStart2C [digitChar n] = ['0', digitChar n] := by
      unfold padStart2C
      simp
    rw [hpad, jsParseIntChars_digits]
    · rw [digitsValAux_cons, digitsValAux_cons, digitsValAux_nil]
      have h0 : ('0' : Char).toNat - 48 = 0 := by decide
      rw [h0, digitChar_val n hn]
      have hmod : n % 100 = n := by omega
      rw [hmod]
      norm_num
    · simp
    · intro c hc
      rcases List.mem_cons.mp hc with rfl | hc
      · decide
      · rcases List.mem_singleton.mp hc with rfl
        exact digitChar_isDigit n hn
  · rw [if_neg hn]
    have hpad : padStart2C [digitChar (n / 10 % 10), digitChar (n % 10)] =
        [digitChar (n / 10 % 10), digitChar (n % 10)] := by
      unfold padStart2C
      simp
    rw [hpad, jsParseIntChars_digits]
    · rw [digitsValAux_cons, digitsValAux_cons, digitsValAux_nil,
        digitChar_val (n / 10 % 10) (by omega), digitChar_val (n % 10) (by omega)]
      have hval : (0 * 10 + n / 10 % 10) * 10 + n % 10 = n % 100 := by omega
      rw [hval]
    · simp
    · intro c hc
      rcases List.mem_cons.mp hc with rfl | hc
      · exact digitChar_isDigit _ (by omega)
      · rcases List.mem_singleton.mp hc with rfl
        exact digitChar_isDigit _ (by omega)

/-! ### Colon splitting: helper lemmas -/

theorem splitColonChars_cons (c : Char) (rest : List Char) :
    splitColonChars (c :: rest) =
      if c = ':' then [] :: splitColonChars rest
      else
        match splitColonChars rest with
        | [] => [[c]]
        | g :: gs => (c :: g) :: gs := rfl

theorem splitColonChars_no_colon (x : List Char) (hx : ∀ c ∈ x, c ≠ ':') :
    splitColonChars x = [x] := by
  induction x with
  | nil => rfl
  | cons c rest ih =>
    have hc : c ≠ ':' := hx c (List.mem_cons_self c rest)
    rw [splitColonChars_cons, if_neg hc,
        ih (fun c h => hx c (List.mem_cons_of_mem _ h))]

theorem splitColonChars_append (x y : List Char) (hx : ∀ c ∈ x, c ≠ ':') :
    splitColonChars (x ++ ':' :: y) = x :: splitColonChars y := by
  induction x with
  | nil =>
    rw [List.nil_append, splitColonChars_cons, if_pos rfl]
  | cons c rest ih =>
    have hc : c ≠ ':' := hx c (List.mem_cons_self c rest)
    rw [List.cons_append, splitColonChars_cons, if_neg hc,
        ih (fun c h => hx c (List.mem_cons_of_mem _ h))]

theorem natToChars_no_colon (n : Nat) : ∀ c ∈ natToChars n, c ≠ ':' := by
  intro c hc heq
  subst heq
  exact absurd (natToChars_digits n ':' hc) (by decide)

theorem padStart2C_no_colon (l : List Char) (h : ∀ c ∈ l, c.isDigit = true) :
    ∀ c ∈ padStart2C l, c ≠ ':' := by
  intro c hc heq
  subst heq
  exact absurd (padStart2C_digits l h ':' hc) (by decide)

theorem sliceNeg2C_digits (l : List Char) (h : ∀ c ∈ l, c.isDigit = true) :
    ∀ c ∈ sliceNeg2C l, c.isDigit = true :=
  fun c hc => h c (List.mem_of_mem_drop hc)

theorem data_append (a b : String) : (a ++ b).data = a.data ++ b.data := rfl

theorem data_mk (l : List Char) : (String.mk l).data = l := rfl

theorem data_colon : (":" : String).data = [':'] := rfl

/-! ### Round-trip of `generateVersionNumber` through `parseVersionNumber` -/

theorem jsStringOfNullableInt_ofNat (n : Nat) :
    jsStringOfNullableInt (some (n : Int)) = natToString n := by
  show intToString (n : Int) = natToString n
  unfold intToString
  rw [if_neg (by omega)]
  simp

theorem generateVersionNumber_valid (seq : Option Int) (t : String)
    (ht : t = "B" ∨ t = "A" ∨ t = "O") (d : JSDate) :
    generateVersionNumber seq t d =
      some (jsStringOfNullableInt seq ++ ":" ++ t ++ ":" ++ dateStampStr d) := by
  unfold generateVersionNumber
  rw [if_pos ht]

theorem version_string_data (n : Nat) (t : String) (d : JSDate) :
    (natToString n ++ ":" ++ t ++ ":" ++ dateStampStr d).data =
      natToChars n ++ ':' :: (t.data ++ ':' ::
        (padStart2C (sliceNeg2C (natToChars d.fullYear)) ++ ':' ::
         (padStart2C (natToChars (d.month0 + 1)) ++ ':' ::
          (padStart2C (natToChars d.date) ++ ':' ::
           (padStart2C (natToChars d.hours) ++ ':' ::
            (padStart2C (natToChars d.minutes) ++ ':' ::
             padStart2C (natToChars d.seconds))))))) := by
  simp only [natToString, dateStampStr, padStart2, jsSliceNeg2, data_append,
    data_mk, data_colon, List.append_assoc, List.singleton_append,
    List.cons_append, List.nil_append]

theorem jsSplitColon_version (n : Nat) (t : String)
    (htc : ∀ c ∈ t.data, c ≠ ':') (d : JSDate) :
    jsSplitColon (natToString n ++ ":" ++ t ++ ":" ++ dateStampStr d) =
      [natToString n, String.mk t.data,
       padStart2 (jsSliceNeg2 (natToString d.fullYear)),
       padStart2 (natToString (d.month0 + 1)),
       padStart2 (natToString d.date),
       padStart2 (natToString d.hours),
       padStart2 (natToString d.minutes),
       padStart2 (natToString d.seconds)] := by
  unfold jsSplitColon
  rw [version_string_data,
      splitColonChars_append _ _ (natToChars_no_colon n),
      splitColonChars_append _ _ htc,
      splitColonChars_append _ _
        (padStart2C_no_colon _ (sliceNeg2C_digits _ (natToChars_digits _))),
      splitColonChars_append _ _ (padStart2C_no_colon _ (natToChars_digits _)),
      splitColonChars_append _ _ (padStart2C_no_colon _ (natToChars_digits _)),
      splitColonChars_append _ _ (padStart2C_no_colon _ (natToChars_digits _)),
      splitColonChars_append _ _ (padStart2C_no_colon _ (natToChars_digits _)),
      splitColonChars_no_colon _ (padStart2C_no_colon _ (natToChars_digits _))]
  simp only [List.map_cons, List.map_nil]
  rfl

theorem jsParseInt_natToString (n : Nat) :
    jsParseInt (natToString n) = some ((n : Nat) : Int) := by
  show jsParseIntChars (natToChars n) = some ((n : Nat) : Int)
  rw [jsParseIntChars_digits _ (natToChars_ne_nil n) (natToChars_digits n),
      digitsValAux_natToChars_zero]

theorem jsParseInt_pad_natToString (v : Nat) :
    jsParseInt (padStart2 (natToString v)) = some ((v : Nat) : Int) :=
  parse_padStart2C_natToChars v

theorem jsParseInt_year (y : Nat) :
    jsParseInt (padStart2 (jsSliceNeg2 (natToString y))) =
      some ((y % 100 : Nat) : Int) :=
  parse_year_slice y

theorem parse_generate (n : Nat) (t : String)
    (ht : t = "B" ∨ t = "A" ∨ t = "O") (d : JSDate) :
    parseVersionNumber (natToString n ++ ":" ++ t ++ ":" ++ dateStampStr d) =
      some { sequential := some ((n : Nat) : Int), type := t,
             year := some ((d.fullYear % 100 : Nat) : Int),
             month := some ((d.month0 + 1 : Nat) : Int),
             day := some ((d.date : Nat) : Int),
             hour := some ((d.hours : Nat) : Int),
             minute := some ((d.minutes : Nat) : Int),
             second := some ((d.seconds : Nat) : Int) } := by
  have htc : ∀ c ∈ t.data, c ≠ ':' := by
    rcases ht with rfl | rfl | rfl <;> decide
  have htype : String.mk t.data = t := by
    rcases ht with rfl | rfl | rfl <;> rfl
  unfold parseVersionNumber
  rw [jsSplitColon_version n t htc d]
  rw [if_neg (by simp)]
  simp only [List.getD_cons_zero, List.getD_cons_succ]
  rw [jsParseInt_natToString, jsParseInt_year, jsParseInt_pad_natToString,
      jsParseInt_pad_natToString, jsParseInt_pad_natToString,
      jsParseInt_pad_natToString, jsParseInt_pad_natToString, htype]

/-! ### Projection lemmas for the controller operations -/

@[simp] theorem andThen_fst (r : Controller × List Effect)
    (f : Controller → Controller × List Effect) :
    (andThen r f).1 = (f r.1).1 := rfl

@[simp] theorem transitionTo_workflowData (c : Controller) (s : WState) :
    (transitionTo c s).1.workflowData = c.workflowData := rfl

@[simp] theorem transitionTo_currentState (c : Controller) (s : WState) :
    (transitionTo c s).1.currentState = s := rfl

@[simp] theorem transitionTo_activeServerCalls (c : Controller) (s : WState) :
    (transitionTo c s).1.activeServerCalls = c.activeServerCalls := rfl

@[simp] theorem handleError_workflowData (c : Controller) (m : String)
    (e : Option String) : (handleError c m e).1.workflowData = c.workflowData := rfl

@[simp] theorem handleError_currentState (c : Controller) (m : String)
    (e : Option String) : (handleError c m e).1.currentState = WState.ERROR := rfl

@[simp] theorem handleError_activeServerCalls (c : Controller) (m : String)
    (e : Option String) :
    (handleError c m e).1.activeServerCalls = c.activeServerCalls := rfl

@[simp] theorem completeWorkflow_workflowData (c : Controller) :
    (completeWorkflow c).1.workflowData = c.workflowData := rfl

@[simp] theorem completeWorkflow_currentState (c : Controller) :
    (completeWorkflow c).1.currentState = WState.COMPLETE := rfl

@[simp] theorem removeCall_workflowData (cid : String) (c : Controller) :
    (removeCall cid c).workflowData = c.workflowData := rfl

@[simp] theorem addCall_workflowData (cid : String) (c : Controller) :
    (addCall cid c).workflowData = c.workflowData := by
  unfold addCall
  split <;> rfl

@[simp] theorem setP2ModifiedXml_counter (c : Controller) (v : Option String) :
    (setP2ModifiedXml c v).workflowData.versionCounter =
      c.workflowData.versionCounter := rfl

@[simp] theorem setP2Blob_counter (c : Controller) (v : Option Nat) :
    (setP2Blob c v).workflowData.versionCounter =
      c.workflowData.versionCounter := rfl

@[simp] theorem setP2Base64_counter (c : Controller) (v : Option String) :
    (setP2Base64 c v).workflowData.versionCounter =
      c.workflowData.versionCounter := rfl

@[simp] theorem setP2VersionNumber_counter (c : Controller) (v : Option String) :
    (setP2VersionNumber c v).workflowData.versionCounter =
      c.workflowData.versionCounter := rfl

@[simp] theorem setP2IsOfficial_counter (c : Controller) (v : Bool) :
    (setP2IsOfficial c v).workflowData.versionCounter =
      c.workflowData.versionCounter := rfl

@[simp] theorem setP3Committee_counter (c : Controller) (v : Option String) :
    (setP3Committee c v).workflowData.versionCounter =
      c.workflowData.versionCounter := rfl

@[simp] theorem setP3Comments_counter (c : Controller) (v : Option String) :
    (setP3Comments c v).workflowData.versionCounter =
      c.workflowData.versionCounter := rfl

/-! ### `versionCounter` is never written by Phase 2 or Phase 3 -/

theorem counter_phase2AfterReplace (o : RunOracle) (r : ReplaceResult)
    (c : Controller) :
    ((phase2AfterReplace o r c).1).workflowData.versionCounter =
      c.workflowData.versionCounter := by
  unfold phase2AfterReplace
  split <;> simp

theorem counter_safeCallback
    (k : ReplaceResult → Controller → Controller × List Effect)
    (r : ReplaceResult) (c : Controller) (cc : Bool)
    (hk : ∀ r c, ((k r c).1).workflowData.versionCounter =
      c.workflowData.versionCounter) :
    ((safeCallback k r c cc).1.1).workflowData.versionCounter =
      c.workflowData.versionCounter := by
  unfold safeCallback
  split
  · rfl
  · exact hk r c

theorem counter_replaceTimeoutFires (cid : String)
    (k : ReplaceResult → Controller → Controller × List Effect)
    (c : Controller) (cc : Bool)
    (hk : ∀ r c, ((k r c).1).workflowData.versionCounter =
      c.workflowData.versionCounter) :
    ((replaceTimeoutFires cid k c cc).1.1).workflowData.versionCounter =
      c.workflowData.versionCounter := by
  unfold replaceTimeoutFires
  split
  · simpa using hk _ (removeCall cid c)
  · rfl

theorem counter_replaceSuccessArrives (cid : String)
    (res : Option ReplaceResult)
    (k : ReplaceResult → Controller → Controller × List Effect)
    (c : Controller) (cc : Bool)
    (hk : ∀ r c, ((k r c).1).workflowData.versionCounter =
      c.workflowData.versionCounter) :
    ((replaceSuccessArrives cid res k c cc).1.1).workflowData.versionCounter =
      c.workflowData.versionCounter := by
  unfold replaceSuccessArrives
  split
  · cases res with
    | none => simpa using counter_safeCallback k _ (removeCall cid c) cc hk
    | some r =>
      dsimp only
      by_cases hr : r.success = true
      · rw [if_pos hr]
        simpa using counter_safeCallback k r (removeCall cid c) cc hk
      · rw [if_neg hr]
        simpa using counter_safeCallback k _ (removeCall cid c) cc hk
  · rfl

theorem counter_replaceFailureArrives (cid : String) (m : String)
    (k : ReplaceResult → Controller → Controller × List Effect)
    (c : Controller) (cc : Bool)
    (hk : ∀ r c, ((k r c).1).workflowData.versionCounter =
      c.workflowData.versionCounter) :
    ((replaceFailureArrives cid m k c cc).1.1).workflowData.versionCounter =
      c.workflowData.versionCounter := by
  unfold replaceFailureArrives
  split
  · simpa using counter_safeCallback k _ (removeCall cid c) cc hk
  · rfl

theorem counter_replaceDocumentRun (o : RunOracle)
    (k : ReplaceResult → Controller → Controller × List Effect)
    (c : Controller)
    (hk : ∀ r c, ((k r c).1).workflowData.versionCounter =
      c.workflowData.versionCounter) :
    ((replaceDocumentRun o k c).1).workflowData.versionCounter =
      c.workflowData.versionCounter := by
  unfold replaceDocumentRun
  split
  · simp only [andThen_fst]
    cases o.replaceResp with
    | timesOut =>
      simpa using counter_replaceTimeoutFires _ k (addCall o.replaceCallId c)
        false hk
    | succeeds res =>
      simpa using counter_replaceSuccessArrives _ res k
        (addCall o.replaceCallId c) false hk
    | fails m =>
      simpa using counter_replaceFailureArrives _ m k
        (addCall o.replaceCallId c) false hk
  · exact hk _ c

theorem counter_executePhase2 (o : RunOracle) (c : Controller) :
    ((executePhase2 o c).1).workflowData.versionCounter =
      c.workflowData.versionCounter := by
  unfold executePhase2
  simp only [andThen_fst]
  split
  · split
    · simp only [andThen_fst]
      rw [counter_replaceDocumentRun o _ _
        (fun r c => counter_phase2AfterReplace o r c)]
      simp
    · simp
  · simp

theorem counter_executePhase3 (o : RunOracle) (c : Controller) :
    ((executePhase3 o c).1).workflowData.versionCounter =
      c.workflowData.versionCounter := by
  unfold executePhase3 writeVersionHistoryRun
  simp only [andThen_fst]
  split
  · split
    · cases o.writeHistoryResp with
      | success r =>
        by_cases hr : r.success = true
        · simp [hr]
        · simp [hr]
      | failure m => simp
    · simp
  · simp

/-- Claim C3: Phase 2 and Phase 3 never write `workflowData.versionCounter`
(for every oracle and controller, so in particular for successful runs the
value fixed at the end of Phase 1 persists), and the three identifiers
generated from that counter are `seq:B:...`, `seq:A:...`, `seq:O:...` —
type tags `B`, `A`, `O`, the same sequence number, differing only in the tag
and the timestamp part; parsing each recovers the identical `sequential`
value and the respective tag. -/
theorem claim3_counter_and_tags (o : RunOracle) (c : Controller) (n : Nat)
    (d1 d2 d3 : JSDate) :
    ((executePhase2 o c).1).workflowData.versionCounter =
        c.workflowData.versionCounter ∧
    ((executePhase3 o c).1).workflowData.versionCounter =
        c.workflowData.versionCounter ∧
    generateVersionNumber (some ((n : Nat) : Int)) "B" d1 =
        some (natToString n ++ ":" ++ "B" ++ ":" ++ dateStampStr d1) ∧
    generateVersionNumber (some ((n : Nat) : Int)) "A" d2 =
        some (natToString n ++ ":" ++ "A" ++ ":" ++ dateStampStr d2) ∧
    generateVersionNumber (some ((n : Nat) : Int)) "O" d3 =
        some (natToString n ++ ":" ++ "O" ++ ":" ++ dateStampStr d3) ∧
    parseVersionNumber (natToString n ++ ":" ++ "B" ++ ":" ++ dateStampStr d1) =
      some { sequential := some ((n : Nat) : Int), type := "B",
             year := some ((d1.fullYear % 100 : Nat) : Int),
             month := some ((d1.month0 + 1 : Nat) : Int),
             day := some ((d1.date : Nat) : Int),
             hour := some ((d1.hours : Nat) : Int),
             minute := some ((d1.minutes : Nat) : Int),
             second := some ((d1.seconds : Nat) : Int) } ∧
    parseVersionNumber (natToString n ++ ":" ++ "A" ++ ":" ++ dateStampStr d2) =
      some { sequential := some ((n : Nat) : Int), type := "A",
             year := some ((d2.fullYear % 100 : Nat) : Int),
             month := some ((d2.month0 + 1 : Nat) : Int),
             day := some ((d2.date : Nat) : Int),
             hour := some ((d2.hours : Nat) : Int),
             minute := some ((d2.minutes : Nat) : Int),
             second := some ((d2.seconds : Nat) : Int) } ∧
    parseVersionNumber (natToString n ++ ":" ++ "O" ++ ":" ++ dateStampStr d3) =
      some { sequential := some ((n : Nat) : Int), type := "O",
             year := some ((d3.fullYear % 100 : Nat) : Int),
             month := some ((d3.month0 + 1 : Nat) : Int),
             day := some ((d3.date : Nat) : Int),
             hour := some ((d3.hours : Nat) : Int),
             minute := some ((d3.minutes : Nat) : Int),
             second := some ((d3.seconds : Nat) : Int) } := by
  refine ⟨counter_executePhase2 o c, counter_executePhase3 o c, ?_, ?_, ?_,
    parse_generate n "B" (Or.inl rfl) d1,
    parse_generate n "A" (Or.inr (Or.inl rfl)) d2,
    parse_generate n "O" (Or.inr (Or.inr rfl)) d3⟩
  · rw [generateVersionNumber_valid _ _ (Or.inl rfl) d1,
        jsStringOfNullableInt_ofNat]
  · rw [generateVersionNumber_valid _ _ (Or.inr (Or.inl rfl)) d2,
        jsStringOfNullableInt_ofNat]
  · rw [generateVersionNumber_valid _ _ (Or.inr (Or.inr rfl)) d3,
        jsStringOfNullableInt_ofNat]

/-- Claim C6, counterexample: at the concrete date 2025-09-30 09:15:30
(`getFullYear() = 2025`, `getMonth() = 8`), the round trip recovers
sequence 7 and type `A`, but `year` is the two-digit `25` — not `2025`, the
year field of `someDate` — so the date fields do not all match `someDate`
exactly. -/
theorem claim6_counterexample :
    generateVersionNumber (some ((7 : Nat) : Int)) "A"
        { fullYear := 2025, month0 := 8, date := 30, hours := 9,
          minutes := 15, seconds := 30 } = some "7:A:25:09:30:09:15:30" ∧
    parseVersionNumber "7:A:25:09:30:09:15:30" =
      some { sequential := some 7, type := "A", year := some 25,
             month := some 9, day := some 30, hour := some 9,
             minute := some 15, second := some 30 } ∧
    (25 : Int) ≠
      (({ fullYear := 2025, month0 := 8, date := 30, hours := 9,
          minutes := 15, seconds := 30 } : JSDate).fullYear : Int) := by
  refine ⟨by decide, by decide, by decide⟩

/-- Claim C6, amended: for every date, parsing the identifier generated with
sequence 7 and type `A` recovers `sequential = 7`, `type = "A"`, the day,
hour, minute and second fields exactly, the calendar month number
(`getMonth() + 1`), and the year reduced modulo 100 (the identifier stores a
two-digit year). -/
theorem claim6_roundtrip_amended (d : JSDate) :
    ∃ s : String,
      generateVersionNumber (some ((7 : Nat) : Int)) "A" d = some s ∧
      parseVersionNumber s =
        some { sequential := some ((7 : Nat) : Int), type := "A",
               year := some ((d.fullYear % 100 : Nat) : Int),
               month := some ((d.month0 + 1 : Nat) : Int),
               day := some ((d.date : Nat) : Int),
               hour := some ((d.hours : Nat) : Int),
               minute := some ((d.minutes : Nat) : Int),
               second := some ((d.seconds : Nat) : Int) } := by
  refine ⟨natToString 7 ++ ":" ++ "A" ++ ":" ++ dateStampStr d, ?_,
    parse_generate 7 "A" (Or.inr (Or.inl rfl)) d⟩
  rw [generateVersionNumber_valid _ _ (Or.inr (Or.inl rfl)) d,
      jsStringOfNullableInt_ofNat]

/-! ### Chunked processing: helper lemmas -/

theorem processItems_zero {α β : Type} (p : α → Nat → Option β) (arr : List α)
    (idx : Nat) : processItems p arr idx 0 = (idx, [], []) := rfl

theorem processItems_succ {α β : Type} (p : α → Nat → Option β) (arr : List α)
    (idx cnt : Nat) :
    processItems p arr idx (cnt + 1) =
      match arr[idx]? with
      | none => (idx, [], [])
      | some a =>
        let rest := processItems p arr (idx + 1) cnt
        (rest.1,
         (match p a idx with
          | some b => b :: rest.2.1
          | none => rest.2.1),
         idx :: rest.2.2) := rfl

theorem processItems_spec {α β : Type} (p : α → Nat → Option β) (arr : List α) :
    ∀ (cnt idx : Nat), idx ≤ arr.length →
      processItems p arr idx cnt =
        (min (idx + cnt) arr.length,
         (List.range' idx (min (idx + cnt) arr.length - idx)).filterMap
           (probe p arr),
         List.range' idx (min (idx + cnt) arr.length - idx)) := by
  intro cnt
  induction cnt with
  | zero =>
    intro idx h
    have hm : min (idx + 0) arr.length = idx := by omega
    rw [processItems_zero, hm]
    simp
  | succ cnt ih =>
    intro idx h
    cases hx : arr[idx]? with
    | none =>
      have hge : arr.length ≤ idx := List.getElem?_eq_none_iff.mp hx
      have hm : min (idx + (cnt + 1)) arr.length = idx := by omega
      rw [processItems_succ, hx, hm]
      simp
    | some a =>
      have hlt : idx < arr.length := by
        by_contra hge
        push_neg at hge
        rw [List.getElem?_eq_none hge] at hx
        exact Option.noConfusion hx
      rw [processItems_succ, hx]
      dsimp only
      rw [ih (idx + 1) (by omega)]
      have hm : min (idx + 1 + cnt) arr.length = min (idx + (cnt + 1)) arr.length := by
        omega
      rw [hm]
      have he1 : idx + 1 ≤ min (idx + (cnt + 1)) arr.length := by omega
      have hr : List.range' idx (min (idx + (cnt + 1)) arr.length - idx) =
          idx :: List.range' (idx + 1)
            (min (idx + (cnt + 1)) arr.length - (idx + 1)) := by
        have hn : min (idx + (cnt + 1)) arr.length - idx =
            (min (idx + (cnt + 1)) arr.length - (idx + 1)) + 1 := by omega
        rw [hn, List.range'_succ]
      rw [hr, List.filterMap_cons]
      have hp : probe p arr idx = p a idx := by
        unfold probe
        rw [hx]
      rw [hp]
      cases p a idx <;> rfl

theorem chunkRunAux_eq {α β : Type} (p : α → Nat → Option β) (arr : List α)
    (cs : Nat) (budget : Nat → Nat) (k idx : Nat) (accR : List β)
    (accC : List Nat) (fuel : Nat) :
    chunkRunAux p arr cs budget k idx accR accC fuel =
      (if arr.length ≤ (processItems p arr idx (min cs (budget k))).1 then
        some (accR ++ (processItems p arr idx (min cs (budget k))).2.1,
              accC ++ (processItems p arr idx (min cs (budget k))).2.2)
       else
        match fuel with
        | 0 => none
        | Nat.succ fuel' =>
          chunkRunAux p arr cs budget (k + 1)
            (processItems p arr idx (min cs (budget k))).1
            (accR ++ (processItems p arr idx (min cs (budget k))).2.1)
            (accC ++ (processItems p arr idx (min cs (budget k))).2.2) fuel') := by
  conv_lhs => rw [chunkRunAux.eq_def]

theorem chunkRunAux_spec {α β : Type} (p : α → Nat → Option β) (arr : List α)
    (cs : Nat) (budget : Nat → Nat) (hcs : 1 ≤ cs) (hb : ∀ k, 1 ≤ budget k) :
    ∀ (fuel k idx : Nat) (accR : List β) (accC : List Nat),
      idx ≤ arr.length → arr.length - idx ≤ fuel →
      chunkRunAux p arr cs budget k idx accR accC fuel =
        some (accR ++ (List.range' idx (arr.length - idx)).filterMap (probe p arr),
              accC ++ List.range' idx (arr.length - idx)) := by
  intro fuel
  induction fuel with
  | zero =>
    intro k idx accR accC hle hfuel
    have hidx : idx = arr.length := by omega
    rw [chunkRunAux_eq, processItems_spec p arr _ idx hle, ← hidx]
    have hm : min (idx + min cs (budget k)) idx = idx := by omega
    rw [hm, if_pos le_rfl]
  | succ fuel ih =>
    intro k idx accR accC hle hfuel
    rw [chunkRunAux_eq, processItems_spec p arr _ idx hle]
    have hs : 1 ≤ min cs (budget k) := le_min hcs (hb k)
    by_cases hend : arr.length ≤ min (idx + min cs (budget k)) arr.length
    · rw [if_pos hend]
      have he : min (idx + min cs (budget k)) arr.length = arr.length :=
        le_antisymm (min_le_right _ _) hend
      rw [he]
    · rw [if_neg hend]
      push_neg at hend
      have he : min (idx + min cs (budget k)) arr.length =
          idx + min cs (budget k) := by omega
      dsimp only
      rw [ih (k + 1) (min (idx + min cs (budget k)) arr.length)
          (accR ++ (List.range' idx
            (min (idx + min cs (budget k)) arr.length - idx)).filterMap
            (probe p arr))
          (accC ++ List.range' idx
            (min (idx + min cs (budget k)) arr.length - idx))
          (by omega) (by omega)]
      have hsplit : List.range' idx (arr.length - idx) =
          List.range' idx (min (idx + min cs (budget k)) arr.length - idx) ++
          List.range' (min (idx + min cs (budget k)) arr.length)
            (arr.length - min (idx + min cs (budget k)) arr.length) := by
        set e := min (idx + min cs (budget k)) arr.length with hedef
        have h2 : idx + 1 * (e - idx) = e := by omega
        have h3 : (arr.length - e) + (e - idx) = arr.length - idx := by omega
        calc List.range' idx (arr.length - idx)
            = List.range' idx ((arr.length - e) + (e - idx)) := by rw [h3]
          _ = List.range' idx (e - idx) ++
              List.range' (idx + 1 * (e - idx)) (arr.length - e) :=
                (List.range'_append idx (e - idx) (arr.length - e) 1).symm
          _ = List.range' idx (e - idx) ++
              List.range' e (arr.length - e) := by rw [h2]
      rw [hsplit, List.filterMap_append]
      simp [List.append_assoc]

/-- Claim C5, counterexample: the item processor is invoked once on the
one-item list, but its `undefined`/`null` (here `none`) result is dropped, so
`onComplete` receives 0 results, not all N = 1 results of the input. -/
theorem claim5_counterexample :
    chunkProcess [42] 25 (fun (_ : Nat) (_ : Nat) => (none : Option Nat))
        (fun _ => 25) = some (([] : List Nat), [0]) ∧
    ([] : List Nat).length ≠ [42].length :=
  ⟨rfl, by decide⟩

/-- Claim C5, amended: for every input list of N items (including N = 0) and
every item processor, provided each slice makes progress (positive chunk size
and a wall-clock budget admitting at least one item per slice), `chunkProcess`
invokes the item processor exactly once per index, in input order (the
invocation trace is `0, 1, ..., N-1`), and reaches `onComplete` exactly once,
with the processor's non-null results in input order — all N results whenever
the processor never returns null/undefined. -/
theorem claim5_chunk_amended {α β : Type} (dataArray : List α)
    (chunkSize : Nat) (processor : α → Nat → Option β) (budget : Nat → Nat)
    (hcs : 1 ≤ chunkSize) (hb : ∀ k, 1 ≤ budget k) :
    chunkProcess dataArray chunkSize processor budget =
      some ((List.range dataArray.length).filterMap (probe processor dataArray),
            List.range dataArray.length) := by
  unfold chunkProcess
  rw [chunkRunAux_spec processor dataArray chunkSize budget hcs hb
      dataArray.length 0 0 [] [] (by omega) (by omega)]
  simp [List.range_eq_range']

/-- Witness for C5 (amended): a two-item list under chunk size 25 and a
25-item slice budget. -/
theorem claim5_chunk_amended_witness :
    ((1 : Nat) ≤ 25 ∧ ∀ _k : Nat, (1 : Nat) ≤ 25) ∧
    chunkProcess [10, 20] 25 (fun (a : Nat) (i : Nat) => some (a + i))
        (fun _ => 25) =
      some ((List.range ([10, 20] : List Nat).length).filterMap
              (probe (fun (a : Nat) (i : Nat) => some (a + i)) [10, 20]),
            List.range ([10, 20] : List Nat).length) :=
  ⟨⟨by decide, fun _ => by decide⟩,
   claim5_chunk_amended [10, 20] 25 (fun a i => some (a + i)) (fun _ => 25)
     (by decide) (fun _ => (by decide : (1 : Nat) ≤ 25))⟩

end MigopV3
